import Mathlib

/-!
Shallow embedding of the ticket-identity and check-in core of the
Rooted World Tour registration system, together with theorems settling
the claims of its specification.

Source functions embedded here:
- `src/barcode_generator.py`: `generate_ticket_id`, the check-in URL built by
  `create_checkin_qr` (line 132) and by the check-in branch of
  `create_registration_qr` (line 26).
- `src/app.py`: `_extract_ticket_id` (lines 363-386), including a model of the
  parts of `urllib.parse.urlparse` / `parse_qs` / `re.search` that it calls.
- `src/database.py`: `add_registration` (lines 128-183) and `quick_checkin`
  (lines 185-221) over a model of the `registrations` table.

Machine-level conventions: SQL rows are records in a list ordered by rowid
(insertion order; an SQLite full-table scan without ORDER BY returns rows in
rowid order, which is how `fetchone` after `SELECT ... WHERE ticket_id LIKE ?`
is modelled).  `datetime.now()` is modelled by a `Nat` parameter.  The PIL/QR
image rendering around the URL strings is out of scope per the spec and is not
modelled.
-/

namespace RootedTour

/-- ASCII uppercase letter test (`A`..`Z`). -/
def isAsciiUpperCh (c : Char) : Bool := 'A' ≤ c && c ≤ 'Z'

/-- ASCII lowercase letter test (`a`..`z`). -/
def isAsciiLowerCh (c : Char) : Bool := 'a' ≤ c && c ≤ 'z'

/-- ASCII digit test (`0`..`9`). -/
def isAsciiDigitCh (c : Char) : Bool := '0' ≤ c && c ≤ '9'

/-- ASCII alphanumeric test. -/
def isAsciiAlnumCh (c : Char) : Bool :=
  isAsciiUpperCh c || isAsciiLowerCh c || isAsciiDigitCh c

/-- ASCII lowercase mapping, as used by SQLite's default (ASCII
case-insensitive) `LIKE` comparison. -/
def asciiLowerCh (c : Char) : Char :=
  if isAsciiUpperCh c then Char.ofNat (c.toNat + 32) else c

/-- Hex digit test, both cases (as accepted by `urllib.parse.unquote`). -/
def isHexDigitCh (c : Char) : Bool :=
  isAsciiDigitCh c || ('a' ≤ c && c ≤ 'f') || ('A' ≤ c && c ≤ 'F')

/-- Value of a hex digit. -/
def hexValCh (c : Char) : Nat :=
  if isAsciiDigitCh c then c.toNat - 48
  else if 'a' ≤ c && c ≤ 'f' then c.toNat - 87
  else c.toNat - 55

/-- Lowercase hex digit test: the alphabet of the first eight characters of
`str(uuid.uuid4())` (Python renders uuid4 in lowercase hex). -/
def isLowerHexCh (c : Char) : Bool :=
  isAsciiDigitCh c || ('a' ≤ c && c ≤ 'f')

/-!
## barcode_generator.py
-/

/-- Python `generate_ticket_id(self, prefix="RWT")`:
`unique_id = str(uuid.uuid4())[:8].upper(); return f"{prefix}-{unique_id}"`.
The random uuid4 rendering is passed in as the string `u`; `pfx` is the
source's `prefix` argument (renamed: `prefix` is a Lean keyword).
Python `[:8]` slices code points and `.upper()` uppercases per character,
which on the uuid alphabet (ASCII hex) agrees with `Char.toUpper`. -/
def generate_ticket_id (u : String) (pfx : String) : String :=
  pfx ++ "-" ++ String.mk ((u.data.take 8).map Char.toUpper)

/-- Python `create_checkin_qr` line 132:
`checkin_url = f"{self.base_url}/?ticket={ticket_id}&action=checkin"`
(the f-string concatenates exactly these pieces). -/
def create_checkin_qr_url (base_url ticket_id : String) : String :=
  base_url ++ "/?ticket=" ++ ticket_id ++ "&action=checkin"

/-- Python `create_registration_qr` line 26 (the check-in branch):
`registration_url = f"{self.base_url}/?ticket={ticket_id}&action=checkin"`. -/
def create_registration_qr_checkin_url (base_url ticket_id : String) : String :=
  base_url ++ "/?ticket=" ++ ticket_id ++ "&action=checkin"

/-- Uppercase hex digit of a value below 16. -/
def hexDigitUpper (n : Nat) : Char :=
  if n < 10 then Char.ofNat (48 + n) else Char.ofNat (55 + n)

/-- Spec-side definition (follows the spec's words, for comparison with the
source encoder): a character the escaping contract leaves unescaped — an RFC
3986 unreserved character or `/` (the default `safe` set of
`urllib.parse.quote`, which the spec's "percent-escape" refers to). -/
def specUnreservedCh (c : Char) : Bool :=
  isAsciiAlnumCh c || c = '-' || c = '.' || c = '_' || c = '~' || c = '/'

/-- Spec-side definition: percent-escaping of one character (ASCII model;
no theorem applies it to characters above `0x7f`). -/
def specQuoteChar (c : Char) : List Char :=
  if specUnreservedCh c then [c]
  else ['%', hexDigitUpper (c.toNat / 16), hexDigitUpper (c.toNat % 16)]

/-- Spec-side definition: defensive percent-escaping of a ticket identifier,
as the spec's encoding contract demands. -/
def specQuote (s : String) : String :=
  String.mk (s.data.foldr (fun c acc => specQuoteChar c ++ acc) [])

/-!
## app.py: `_extract_ticket_id` and the stdlib pieces it calls

The model of `urllib.parse.urlparse` follows CPython `urlsplit`: strip
leading/trailing C0-control-or-space characters, remove every tab/CR/LF,
split off a valid scheme at the first `:`, take the netloc after `//` up to
the first of `/?#`, raise `ValueError` on a netloc with unbalanced square
brackets (the "Invalid IPv6 URL" check; the stricter bracketed-host
validation added in later CPython versions is not modelled, and no theorem
involves a bracketed host), then split the fragment at the first `#` and the
query at the first `?`.  `parse_qs` splits the query on `&`, skips pairs
without `=` and pairs with an empty raw value, and applies
`.replace('+', ' ')` followed by percent-decoding to names and values
(percent-decoding is modelled per byte; multi-byte UTF-8 percent sequences
are not decoded further, and no theorem involves one).
-/

/-- Tab, carriage return or line feed (CPython's unsafe URL bytes). -/
def tabCrLf (c : Char) : Bool := c = '\t' || c = '\r' || c = '\n'

/-- C0 control or space (stripped from URL ends by CPython). -/
def isC0OrSpace (c : Char) : Bool := c.toNat ≤ 0x20

/-- Strip C0-control-or-space characters from both ends. -/
def stripC0 (l : List Char) : List Char :=
  ((l.dropWhile isC0OrSpace).reverse.dropWhile isC0OrSpace).reverse

/-- CPython `urlsplit` input cleaning: strip ends, remove tab/CR/LF. -/
def cleanUrl (l : List Char) : List Char :=
  (stripC0 l).filter (fun c => !tabCrLf c)

/-- Characters permitted in a URL scheme. -/
def schemeChar (c : Char) : Bool :=
  isAsciiAlnumCh c || c = '+' || c = '-' || c = '.'

/-- Split a list at the first occurrence of `k` (Python `split(k, 1)` when it
succeeds, `str.find` style). -/
def splitFirst (k : Char) : List Char → Option (List Char × List Char)
  | [] => none
  | c :: t => if c = k then some ([], t) else (splitFirst k t).map (fun p => (c :: p.1, p.2))

/-- The URL after removing a leading valid scheme, per CPython `urlsplit`. -/
def schemeRest (l : List Char) : List Char :=
  match splitFirst ':' l with
  | none => l
  | some (bef, aft) =>
    match bef with
    | [] => l
    | c0 :: _ =>
      if (isAsciiUpperCh c0 || isAsciiLowerCh c0) && bef.all schemeChar then aft else l

/-- The netloc of a post-scheme URL: after a leading `//`, up to the first of
`/?#`; empty otherwise. -/
def netlocOf (l : List Char) : List Char :=
  match l with
  | a :: b :: rest =>
    if a = '/' ∧ b = '/' then rest.takeWhile (fun c => c ≠ '/' && c ≠ '?' && c ≠ '#')
    else []
  | _ => []

/-- Does `urlparse` raise `ValueError` ("Invalid IPv6 URL") on this input:
netloc with `[` and without `]`, or vice versa. -/
def urlRaisesB (l : List Char) : Bool :=
  let n := netlocOf (schemeRest (cleanUrl l))
  (n.contains '[') != (n.contains ']')

/-- Everything after the first occurrence of `k` (empty if `k` is absent):
`split(k, 1)` keeping the right part, Python-style. -/
def afterChar (k : Char) : List Char → List Char
  | [] => []
  | c :: t => if c = k then t else afterChar k t

/-- The query component `urlparse` reports: clean the URL, cut the fragment at
the first `#`, then take what follows the first `?`. -/
def urlQueryL (l : List Char) : List Char :=
  afterChar '?' ((cleanUrl l).takeWhile (fun c => c ≠ '#'))

/-- Python `str.split(k)`: split on every occurrence, keeping empty pieces. -/
def splitOnChar (k : Char) : List Char → List (List Char)
  | [] => [[]]
  | c :: t =>
    if c = k then [] :: splitOnChar k t
    else
      match splitOnChar k t with
      | [] => [[c]]
      | h :: r => (c :: h) :: r

/-- Python `unquote(s.replace('+', ' '))` on ASCII text: `+` becomes a space,
`%xy` with two hex digits becomes the byte `16*x + y`, an invalid `%` stays. -/
def unquotePlusL (l : List Char) : List Char :=
  match l with
  | [] => []
  | '+' :: t => ' ' :: unquotePlusL t
  | '%' :: a :: b :: t =>
    if isHexDigitCh a && isHexDigitCh b then
      Char.ofNat (16 * hexValCh a + hexValCh b) :: unquotePlusL t
    else '%' :: unquotePlusL (a :: b :: t)
  | '%' :: t => '%' :: unquotePlusL t
  | c :: t => c :: unquotePlusL t

/-- `parse_qs(query).get('ticket', [None])[0]`: the first `name=value` pair
whose decoded name is `ticket` and whose raw value is non-empty (parse_qs
skips pairs without `=` and pairs with empty values); its decoded value. -/
def ticketFromPairs : List (List Char) → Option (List Char)
  | [] => none
  | piece :: rest =>
    match splitFirst '=' piece with
    | none => ticketFromPairs rest
    | some (n, v) =>
      if unquotePlusL n = "ticket".data ∧ v ≠ [] then some (unquotePlusL v)
      else ticketFromPairs rest

/-- The `ticket` query parameter `_extract_ticket_id`'s URL branch returns. -/
def ticketParamL (l : List Char) : Option (List Char) :=
  ticketFromPairs (splitOnChar '&' (urlQueryL l))

/-- Python `needle in hay` on strings: contiguous substring test. -/
def substrContains (hay needle : List Char) : Bool :=
  match hay with
  | [] => needle.isEmpty
  | c :: t => needle.isPrefixOf (c :: t) || substrContains t needle

/-- The prefixes tested by `qr_data.startswith(('RWT-', 'VIP-', 'WT-', 'VOL-', 'STAFF-'))`. -/
def knownTicketHeads : List String := ["RWT-", "VIP-", "WT-", "VOL-", "STAFF-"]

/-- Python `qr_data.startswith(('RWT-', 'VIP-', 'WT-', 'VOL-', 'STAFF-'))`. -/
def startsWithKnown (qr : String) : Bool :=
  knownTicketHeads.any (fun p => p.data.isPrefixOf qr.data)

/-- One attempt of `re.search(r'([A-Z]{2,4}-[A-Z0-9]{6,12})', ...)` anchored at
the head of `l`: a maximal run of 2-4 uppercase letters (a longer run leaves
no way to place the `-`), a `-`, then greedily up to 12 characters of
`[A-Z0-9]`, at least 6. -/
def regexMatchAt (l : List Char) : Option (List Char) :=
  let letters := l.takeWhile isAsciiUpperCh
  if 2 ≤ letters.length && letters.length ≤ 4 then
    match l.drop letters.length with
    | '-' :: rest =>
      let body := (rest.takeWhile (fun c => isAsciiUpperCh c || isAsciiDigitCh c)).take 12
      if 6 ≤ body.length then some (letters ++ '-' :: body) else none
    | _ => none
  else none

/-- `re.search`: the leftmost position where the pattern matches. -/
def regexSearch (l : List Char) : Option (List Char) :=
  match regexMatchAt l with
  | some m => some m
  | none =>
    match l with
    | [] => none
    | _ :: t => regexSearch t

/-- Strategies (b) and (c) of `_extract_ticket_id`: the known-prefix check,
then the regex search. -/
def extract_fallback (qr : String) : Option String :=
  if startsWithKnown qr then some qr
  else (regexSearch qr.data).map (fun m => String.mk m)

/-- Python `_extract_ticket_id(qr_data)` (app.py lines 363-386): empty input
gives `None`; if the text contains `"?ticket="` the URL branch returns the
`ticket` query parameter (possibly `None`) unless `urlparse` raises, in which
case — and when `"?ticket="` is absent — the prefix check and the regex
search run.  (Lean name drops the leading underscore.) -/
def extract_ticket_id (qr_data : String) : Option String :=
  if qr_data = "" then none
  else if substrContains qr_data.data ("?ticket=".data) then
    if urlRaisesB qr_data.data then extract_fallback qr_data
    else (ticketParamL qr_data.data).map (fun m => String.mk m)
  else extract_fallback qr_data

/-- Spec-side definition (follows the claim's words for the extraction
strategy list): the text "matches a known ticket-prefix pattern
(PREFIX-ALNUM)" — it starts with one of the known prefixes and the remainder
is non-empty and alphanumeric. -/
def specKnownPattern (qr : String) : Bool :=
  knownTicketHeads.any (fun p =>
    p.data.isPrefixOf qr.data &&
    (!(qr.data.drop p.data.length).isEmpty &&
      (qr.data.drop p.data.length).all isAsciiAlnumCh))

/-- Spec-side definition (follows the claim's words): (a) if the text has a
`ticket` query parameter, return its value; (b) if the text itself matches a
known ticket-prefix pattern, return it verbatim; (c) return the first
substring matching the regex; otherwise no result. -/
def spec_extract_ticket_id (qr : String) : Option String :=
  match ticketParamL qr.data with
  | some v => some (String.mk v)
  | none =>
    if specKnownPattern qr then some qr
    else (regexSearch qr.data).map (fun m => String.mk m)

/-!
## database.py
-/

/-- One row of the `registrations` table (the columns the specified core
reads or writes; the remaining columns are glue the spec excludes). -/
structure Reg where
  ticket_id : String
  first_name : String
  last_name : String
  email : String
  phone : String
  status : String
  checkin_time : Option Nat
deriving DecidableEq

/-- SQLite `LIKE`: `%` matches any sequence, `_` any single character, other
characters match themselves ASCII-case-insensitively (SQLite's default). -/
def likeMatchAux (p s : List Char) : Bool :=
  match p, s with
  | [], [] => true
  | [], _ :: _ => false
  | '%' :: p2, [] => likeMatchAux p2 []
  | '%' :: p2, c :: s2 => likeMatchAux p2 (c :: s2) || likeMatchAux ('%' :: p2) s2
  | '_' :: _, [] => false
  | '_' :: p2, _ :: s2 => likeMatchAux p2 s2
  | _ :: _, [] => false
  | pc :: p2, c :: s2 => (asciiLowerCh pc == asciiLowerCh c) && likeMatchAux p2 s2
termination_by (s.length, p.length)

/-- SQLite `s LIKE p`. -/
def likeMatch (p s : String) : Bool := likeMatchAux p.data s.data

/-- The pattern `f"%{ticket_id}%"` used by `quick_checkin`. -/
def likePat (t : String) : String := "%" ++ t ++ "%"

/-- WHERE clause of the first UPDATE: `ticket_id = ? AND status = 'registered'`
(SQLite `=` on TEXT is case-sensitive). -/
def exactCond (tid : String) (r : Reg) : Bool :=
  r.ticket_id == tid && r.status == "registered"

/-- WHERE clause of the fallback UPDATE:
`ticket_id LIKE '%{tid}%' AND status = 'registered'`. -/
def likeCond (tid : String) (r : Reg) : Bool :=
  likeMatch (likePat tid) r.ticket_id && r.status == "registered"

/-- WHERE clause of the SELECTs: `ticket_id LIKE '%{tid}%'`. -/
def likeSel (tid : String) (r : Reg) : Bool :=
  likeMatch (likePat tid) r.ticket_id

/-- `SET checkin_time = ?, status = 'checked_in'`. -/
def checkRow (now : Nat) (r : Reg) : Reg :=
  { r with status := "checked_in", checkin_time := some now }

/-- The first UPDATE of `quick_checkin` applied to the table. -/
def exactUpdate (now : Nat) (tid : String) (db : List Reg) : List Reg :=
  db.map (fun r => if exactCond tid r then checkRow now r else r)

/-- The fallback UPDATE of `quick_checkin` applied to the table. -/
def likeUpdate (now : Nat) (tid : String) (db : List Reg) : List Reg :=
  db.map (fun r => if likeCond tid r then checkRow now r else r)

/-- `cursor.rowcount` of the first UPDATE. -/
def countExact (tid : String) (db : List Reg) : Nat := db.countP (exactCond tid)

/-- `cursor.rowcount` of the fallback UPDATE. -/
def countLike (tid : String) (db : List Reg) : Nat := db.countP (likeCond tid)

/-- The tail of `quick_checkin` after the updates: `updated = rowcount > 0`;
on `updated`, `SELECT first_name, last_name ... WHERE ticket_id LIKE ?` and
return `(True, attendee)`; otherwise `SELECT first_name, last_name, status`,
and return `(False, names)` when the row is `checked_in`, else
`(False, None)`. -/
def selectResult (tid : String) (db : List Reg) (rc : Nat) :
    Bool × Option (String × String) :=
  if 0 < rc then
    match db.find? (likeSel tid) with
    | some r => (true, some (r.first_name, r.last_name))
    | none => (true, none)
  else
    match db.find? (likeSel tid) with
    | some r =>
      if r.status == "checked_in" then (false, some (r.first_name, r.last_name))
      else (false, none)
    | none => (false, none)

/-- Python `quick_checkin(self, ticket_id)` (database.py lines 185-221) as a
state transformer on the table: exact conditional UPDATE; if it changed no
row, the `LIKE '%tid%'` fallback UPDATE; then the reporting SELECTs.
A single `now` stands for the (per-statement) `datetime.now()` calls: at most
one of the two UPDATEs modifies rows. -/
def quick_checkin (now : Nat) (tid : String) (db : List Reg) :
    (Bool × Option (String × String)) × List Reg :=
  if countExact tid db = 0 then
    (selectResult tid (likeUpdate now tid (exactUpdate now tid db))
      (countLike tid (exactUpdate now tid db)),
     likeUpdate now tid (exactUpdate now tid db))
  else
    (selectResult tid (exactUpdate now tid db) (countExact tid db),
     exactUpdate now tid db)

/-- The caller-supplied registration fields `add_registration` reads; a
missing or falsy `ticket_id` is modelled by the empty string (Python:
`if 'ticket_id' not in data or not data['ticket_id']`). -/
structure RegData where
  ticket_id : String
  first_name : String
  last_name : String
  email : String
  phone : String

/-- Python `add_registration(self, data)` (database.py lines 128-183): fill in
a generated ticket id (`gen`, the value `generate_ticket_id` would produce)
when none is supplied, INSERT a row with `status` defaulting to
`'registered'` and NULL `checkin_time`; the UNIQUE constraint on `ticket_id`
makes a duplicate INSERT raise `sqlite3.IntegrityError`, which the source
turns into `(False, "Ticket ID already exists!", None, None)`.  (The QR image
also returned by the source is rendering glue, out of the spec's scope.) -/
def add_registration (gen : String) (d : RegData) (db : List Reg) :
    (Bool × String × Option String) × List Reg :=
  let tid := if d.ticket_id = "" then gen else d.ticket_id
  if db.any (fun r => r.ticket_id == tid) then
    ((false, "Ticket ID already exists!", none), db)
  else
    ((true, "Registration successful!", some tid),
      db ++ [⟨tid, d.first_name, d.last_name, d.email, d.phone, "registered", none⟩])

/-!
## Two concurrent `quick_checkin` calls

Each call is a sequence of three atomic database operations (SQLite
serialises individual statements): the exact UPDATE, the conditional fallback
UPDATE, and the reporting SELECT.  A schedule interleaves the steps of the
two calls; this over-approximates the interleavings SQLite's transaction
locking actually allows.
-/

/-- The control state of one in-flight `quick_checkin` call: program counter,
the saved rowcount of the exact UPDATE, the current `cursor.rowcount`, and
the value it returns once finished. -/
structure Th where
  pc : Nat
  c1 : Nat
  rc : Nat
  res : Bool × Option (String × String)
deriving DecidableEq

/-- A call that has not started. -/
def thInit : Th := ⟨0, 0, 0, (false, none)⟩

/-- One atomic step of a `quick_checkin` call against the shared table. -/
def thStep (now : Nat) (tid : String) (db : List Reg) (th : Th) : List Reg × Th :=
  match th.pc with
  | 0 => (exactUpdate now tid db,
          { th with pc := 1, c1 := countExact tid db, rc := countExact tid db })
  | 1 =>
    if th.c1 = 0 then
      (likeUpdate now tid db, { th with pc := 2, rc := countLike tid db })
    else (db, { th with pc := 2 })
  | 2 => (db, { th with pc := 3, res := selectResult tid db th.rc })
  | _ => (db, th)

/-- Shared table plus the two call states. -/
structure Conf where
  db : List Reg
  a : Th
  b : Th
deriving DecidableEq

/-- Run one step of thread `a` (`who = true`) or thread `b` (`who = false`). -/
def schedStep (nowA nowB : Nat) (tid : String) (c : Conf) (who : Bool) : Conf :=
  if who then
    let p := thStep nowA tid c.db c.a
    { c with db := p.1, a := p.2 }
  else
    let p := thStep nowB tid c.db c.b
    { c with db := p.1, b := p.2 }

/-- Run a whole schedule. -/
def runSched (nowA nowB : Nat) (tid : String) (s : List Bool) (c : Conf) : Conf :=
  s.foldl (schedStep nowA nowB tid) c

/-- The control states a call can be in after it was the one whose exact
UPDATE transitioned the ticket (`nm` is the attendee's name pair). -/
def c8win (nm : String × String) (th : Th) : Prop :=
  th = ⟨1, 1, 1, (false, none)⟩ ∨ th = ⟨2, 1, 1, (false, none)⟩ ∨
  th = ⟨3, 1, 1, (true, some nm)⟩

/-- The control states of the other call: it has not started, or each of its
statements found the ticket already `checked_in`. -/
def c8lose (nm : String × String) (th : Th) : Prop :=
  th = thInit ∨ th = ⟨1, 0, 0, (false, none)⟩ ∨ th = ⟨2, 0, 0, (false, none)⟩ ∨
  th = ⟨3, 0, 0, (false, some nm)⟩

/-- Invariant of two interleaved `quick_checkin` calls with the same
identifier on a table whose only `LIKE`-matching row is the ticket itself:
either nothing has happened yet, or the ticket is checked in and one call is
in a winner state while the other is in a loser state. -/
def c8Inv (pre post : List Reg) (r : Reg) (c : Conf) : Prop :=
  (c = ⟨pre ++ r :: post, thInit, thInit⟩) ∨
  (∃ n : Nat, c.db = pre ++ checkRow n r :: post ∧
    ((c8win (r.first_name, r.last_name) c.a ∧ c8lose (r.first_name, r.last_name) c.b) ∨
     (c8win (r.first_name, r.last_name) c.b ∧ c8lose (r.first_name, r.last_name) c.a)))

/-!
## Helper lemmas: characters
-/

theorem toNat_ofNat_valid (n : Nat) (hv : n.isValidChar) : (Char.ofNat n).toNat = n := by
  rw [Char.ofNat, dif_pos hv]
  show (UInt32.toNat _) = n
  simp [Char.ofNatAux, UInt32.toNat]

theorem char_le_iff {c d : Char} : c ≤ d ↔ c.toNat ≤ d.toNat := by
  rw [Char.le_def]
  exact ⟨fun h => h, fun h => h⟩

theorem char_toNat_inj {c d : Char} (h : c.toNat = d.toNat) : c = d := by
  rw [← Char.ofNat_toNat c, ← Char.ofNat_toNat d, h]

theorem char_ne_of_toNat_ne {c d : Char} (h : c.toNat ≠ d.toNat) : c ≠ d :=
  fun he => h (he ▸ rfl)

theorem isAsciiUpperCh_iff {c : Char} :
    isAsciiUpperCh c = true ↔ 65 ≤ c.toNat ∧ c.toNat ≤ 90 := by
  have h1 : 'A'.toNat = 65 := rfl
  have h2 : 'Z'.toNat = 90 := rfl
  simp [isAsciiUpperCh, char_le_iff, h1, h2]

theorem isAsciiLowerCh_iff {c : Char} :
    isAsciiLowerCh c = true ↔ 97 ≤ c.toNat ∧ c.toNat ≤ 122 := by
  have h1 : 'a'.toNat = 97 := rfl
  have h2 : 'z'.toNat = 122 := rfl
  simp [isAsciiLowerCh, char_le_iff, h1, h2]

theorem isAsciiDigitCh_iff {c : Char} :
    isAsciiDigitCh c = true ↔ 48 ≤ c.toNat ∧ c.toNat ≤ 57 := by
  have h1 : '0'.toNat = 48 := rfl
  have h2 : '9'.toNat = 57 := rfl
  simp [isAsciiDigitCh, char_le_iff, h1, h2]

theorem isAsciiAlnumCh_iff {c : Char} :
    isAsciiAlnumCh c = true ↔
      (65 ≤ c.toNat ∧ c.toNat ≤ 90) ∨ (97 ≤ c.toNat ∧ c.toNat ≤ 122) ∨
      (48 ≤ c.toNat ∧ c.toNat ≤ 57) := by
  simp only [isAsciiAlnumCh, Bool.or_eq_true, isAsciiUpperCh_iff, isAsciiLowerCh_iff,
    isAsciiDigitCh_iff]
  tauto

theorem isLowerHexCh_iff {c : Char} :
    isLowerHexCh c = true ↔
      (48 ≤ c.toNat ∧ c.toNat ≤ 57) ∨ (97 ≤ c.toNat ∧ c.toNat ≤ 102) := by
  have h1 : 'a'.toNat = 97 := rfl
  have h2 : 'f'.toNat = 102 := rfl
  simp [isLowerHexCh, isAsciiDigitCh_iff, char_le_iff, h1, h2]

theorem upper_of_lower_hex {c : Char} (h : isLowerHexCh c = true) :
    isAsciiAlnumCh c.toUpper = true := by
  rcases isLowerHexCh_iff.mp h with hd | hl
  · have hcond : ¬(c.toNat ≥ 97 ∧ c.toNat ≤ 122) := by omega
    rw [Char.toUpper]
    simp only [if_neg hcond]
    exact isAsciiAlnumCh_iff.mpr (Or.inr (Or.inr hd))
  · have hcond : c.toNat ≥ 97 ∧ c.toNat ≤ 122 := ⟨hl.1, by omega⟩
    rw [Char.toUpper]
    simp only [if_pos hcond]
    have hv : (c.toNat - 32).isValidChar := Or.inl (by omega)
    refine isAsciiAlnumCh_iff.mpr (Or.inl ?_)
    rw [toNat_ofNat_valid _ hv]
    omega

/-!
## Helper lemmas: lists
-/

theorem list_map_self {α : Type} {g : α → α} :
    ∀ l : List α, (∀ x ∈ l, g x = x) → l.map g = l
  | [], _ => rfl
  | x :: t, h => by
    have hx : g x = x := h x (by simp)
    have ht := list_map_self t (fun y hy => h y (by simp [hy]))
    simp [hx, ht]

theorem find_append_first {α : Type} (p : α → Bool) (l1 l2 : List α) (x : α)
    (h1 : ∀ y ∈ l1, p y = false) (hx : p x = true) :
    List.find? p (l1 ++ x :: l2) = some x := by
  induction l1 with
  | nil => simpa using List.find?_cons_of_pos l2 hx
  | cons y t ih =>
    have hy : p y = false := h1 y (by simp)
    have ht := ih (fun z hz => h1 z (by simp [hz]))
    simp only [List.cons_append]
    rw [List.find?_cons_of_neg _ (by simp [hy]), ht]

/-!
## Claim C6: the check-in payload URL contract
-/

theorem create_checkin_qr_url_data (b t : String) :
    (create_checkin_qr_url b t).data =
      b.data ++ ("/?ticket=".data ++ (t.data ++ "&action=checkin".data)) := by
  simp [create_checkin_qr_url, String.data_append]

/-- Claim C6: for every base URL and ticket_id, the encoded check-in payload
is exactly `base_url ++ "/?ticket=" ++ ticket_id ++ "&action=checkin"`, both
in `create_checkin_qr` and in the check-in branch of
`create_registration_qr`, down to the character sequence. -/
theorem c6_checkin_url_contract (base_url ticket_id : String) :
    create_checkin_qr_url base_url ticket_id =
      base_url ++ "/?ticket=" ++ ticket_id ++ "&action=checkin" ∧
    create_registration_qr_checkin_url base_url ticket_id =
      create_checkin_qr_url base_url ticket_id ∧
    (create_checkin_qr_url base_url ticket_id).data =
      base_url.data ++ ("/?ticket=".data ++ (ticket_id.data ++ "&action=checkin".data)) :=
  ⟨rfl, rfl, create_checkin_qr_url_data base_url ticket_id⟩

/-!
## Claim C9: the encoder does not percent-escape
-/

/-- Counterexample to claim C9: for the ticket identifier `"A B"` the encoder
emits the space verbatim, not the percent-escaped `%20` form the claim
asserts. -/
theorem c9_counterexample :
    create_checkin_qr_url "https://x.test" "A B" ≠
      "https://x.test" ++ "/?ticket=" ++ specQuote "A B" ++ "&action=checkin" := by
  decide

theorem specUnreservedCh_of_alnum_dash {c : Char}
    (h : isAsciiAlnumCh c = true ∨ c = '-') : specUnreservedCh c = true := by
  rcases h with h | h <;> simp [specUnreservedCh, h]

theorem specQuote_eq_self {tid : String}
    (h : ∀ c ∈ tid.data, isAsciiAlnumCh c = true ∨ c = '-') : specQuote tid = tid := by
  have hfold : ∀ l : List Char, (∀ c ∈ l, isAsciiAlnumCh c = true ∨ c = '-') →
      l.foldr (fun c acc => specQuoteChar c ++ acc) [] = l := by
    intro l
    induction l with
    | nil => intro _; rfl
    | cons c t ih =>
      intro hl
      have hc : specQuoteChar c = [c] := by
        rw [specQuoteChar, if_pos (specUnreservedCh_of_alnum_dash (hl c (by simp)))]
      simp [hc, ih (fun d hd => hl d (by simp [hd]))]
  show String.mk _ = tid
  rw [hfold tid.data h]

/-- Claim C9 amended: the encoder interpolates `ticket_id` verbatim with no
escaping; on the generator's alphabet (ASCII alphanumerics and `-`)
percent-escaping is the identity, so there the emitted URL coincides with the
escaped form the contract asks for. -/
theorem c9_verbatim_on_generator_alphabet (base tid : String)
    (h : ∀ c ∈ tid.data, isAsciiAlnumCh c = true ∨ c = '-') :
    specQuote tid = tid ∧
    create_checkin_qr_url base tid =
      base ++ "/?ticket=" ++ specQuote tid ++ "&action=checkin" := by
  have hq : specQuote tid = tid := specQuote_eq_self h
  exact ⟨hq, by rw [hq]; rfl⟩

/-- Witness for `c9_verbatim_on_generator_alphabet` at a concrete generated
identifier. -/
theorem c9_verbatim_witness :
    specQuote "RWT-AB12CD34" = "RWT-AB12CD34" ∧
    create_checkin_qr_url "https://x.test" "RWT-AB12CD34" =
      "https://x.test" ++ "/?ticket=" ++ specQuote "RWT-AB12CD34" ++ "&action=checkin" :=
  c9_verbatim_on_generator_alphabet "https://x.test" "RWT-AB12CD34" (by decide)

/-!
## Claim C10: shape of generated ticket identifiers
-/

/-- Claim C10: `generate_ticket_id` returns exactly
`prefix ++ "-" ++ suffix` where the suffix has 8 alphanumeric characters
(the uppercased first 8 hex characters of the uuid4 rendering `u`). -/
theorem c10_ticket_id_format (u pfx : String)
    (h8 : 8 ≤ u.data.length)
    (hhex : ∀ c ∈ u.data.take 8, isLowerHexCh c = true) :
    ∃ suf : String, generate_ticket_id u pfx = pfx ++ "-" ++ suf ∧
      suf.data.length = 8 ∧ ∀ c ∈ suf.data, isAsciiAlnumCh c = true := by
  refine ⟨String.mk ((u.data.take 8).map Char.toUpper), rfl, ?_, ?_⟩
  · show ((u.data.take 8).map Char.toUpper).length = 8
    rw [List.length_map, List.length_take]
    omega
  · intro c hc
    have hc2 : c ∈ (u.data.take 8).map Char.toUpper := hc
    rw [List.mem_map] at hc2
    obtain ⟨d, hd, rfl⟩ := hc2
    exact upper_of_lower_hex (hhex d hd)

/-- Witness for `c10_ticket_id_format` at a concrete uuid4 rendering. -/
theorem c10_ticket_id_format_witness :
    ∃ suf : String,
      generate_ticket_id "1a2b3c4d-5e6f-7a8b-9c0d-ef1234567890" "RWT" =
        "RWT" ++ "-" ++ suf ∧
      suf.data.length = 8 ∧ ∀ c ∈ suf.data, isAsciiAlnumCh c = true :=
  c10_ticket_id_format "1a2b3c4d-5e6f-7a8b-9c0d-ef1234567890" "RWT"
    (by decide) (by decide)

/-!
## Claim C4: duplicate ticket identifiers on insertion
-/

/-- Claim C4: inserting a registration whose `ticket_id` is not yet present
succeeds; re-inserting any registration with the same `ticket_id` fails with
the distinct duplicate-identifier message and leaves the table — in
particular the first registration's stored fields — unchanged.  The message
differs from the success message and is not one of the generic
`"Error: ..."` results. -/
theorem c4_duplicate_ticket_id (g1 g2 : String) (d1 d2 : RegData) (db : List Reg)
    (h1 : d1.ticket_id ≠ "")
    (h2 : d2.ticket_id = d1.ticket_id)
    (h3 : ∀ r ∈ db, r.ticket_id ≠ d1.ticket_id) :
    ∃ row : Reg,
      add_registration g1 d1 db =
        ((true, "Registration successful!", some d1.ticket_id), db ++ [row]) ∧
      row.ticket_id = d1.ticket_id ∧
      add_registration g2 d2 (db ++ [row]) =
        ((false, "Ticket ID already exists!", none), db ++ [row]) ∧
      "Ticket ID already exists!" ≠ "Registration successful!" ∧
      ("Error: ".data.isPrefixOf "Ticket ID already exists!".data) = false := by
  have htid1 : (if d1.ticket_id = "" then g1 else d1.ticket_id) = d1.ticket_id :=
    if_neg h1
  have hany : db.any (fun r => r.ticket_id == d1.ticket_id) = false := by
    rw [List.any_eq_false]
    intro r hr
    simp [h3 r hr]
  refine ⟨⟨d1.ticket_id, d1.first_name, d1.last_name, d1.email, d1.phone,
    "registered", none⟩, ?_, rfl, ?_, by decide, by decide⟩
  · rw [add_registration]
    simp only [htid1, hany]
    rfl
  · have htid2 : (if d2.ticket_id = "" then g2 else d2.ticket_id) = d1.ticket_id := by
      rw [h2] at *
      exact if_neg h1
    rw [add_registration]
    simp only [htid2]
    have hany2 : (db ++ [(⟨d1.ticket_id, d1.first_name, d1.last_name, d1.email,
        d1.phone, "registered", none⟩ : Reg)]).any
        (fun r => r.ticket_id == d1.ticket_id) = true := by
      rw [List.any_eq_true]
      refine ⟨⟨d1.ticket_id, d1.first_name, d1.last_name, d1.email, d1.phone,
        "registered", none⟩, by simp, by simp⟩
    rw [hany2]
    simp

/-- Witness for `c4_duplicate_ticket_id` at concrete registrations. -/
theorem c4_duplicate_ticket_id_witness :
    ∃ row : Reg,
      add_registration "G1" ⟨"RWT-AB12CD34", "Ann", "B", "a@b", "1"⟩ [] =
        ((true, "Registration successful!", some "RWT-AB12CD34"), [] ++ [row]) ∧
      row.ticket_id = "RWT-AB12CD34" ∧
      add_registration "G2" ⟨"RWT-AB12CD34", "Bob", "C", "b@c", "2"⟩ ([] ++ [row]) =
        ((false, "Ticket ID already exists!", none), [] ++ [row]) ∧
      "Ticket ID already exists!" ≠ "Registration successful!" ∧
      ("Error: ".data.isPrefixOf "Ticket ID already exists!".data) = false :=
  c4_duplicate_ticket_id "G1" "G2" ⟨"RWT-AB12CD34", "Ann", "B", "a@b", "1"⟩
    ⟨"RWT-AB12CD34", "Bob", "C", "b@c", "2"⟩ [] (by decide) rfl (by simp)


theorem percent_matches_all : ∀ s : List Char, likeMatchAux ['%'] s = true := by
  intro s
  induction s with
  | nil => simp [likeMatchAux]
  | cons c t ih => simp [likeMatchAux, ih]

theorem percent_consume (p : List Char) :
    ∀ (s1 s2 : List Char), likeMatchAux p s2 = true →
      likeMatchAux ('%' :: p) (s1 ++ s2) = true := by
  intro s1
  induction s1 with
  | nil =>
    intro s2 h
    cases s2 with
    | nil => simp [likeMatchAux, h]
    | cons c t => simp [likeMatchAux, h]
  | cons a t ih =>
    intro s2 h
    have := ih s2 h
    simp [likeMatchAux, this]

theorem prefix_then_percent : ∀ (l s : List Char),
    likeMatchAux (l ++ ['%']) (l ++ s) = true := by
  intro l
  induction l with
  | nil =>
    intro s
    simpa using percent_matches_all s
  | cons c t ih =>
    intro s
    by_cases hp : c = '%'
    · subst hp
      have h3 := percent_consume (t ++ ['%']) ['%'] (t ++ s) (ih s)
      simpa [likeMatchAux] using h3
    · by_cases hu : c = '_'
      · subst hu
        simp [likeMatchAux, ih s]
      · simp [likeMatchAux, hp, hu, ih s]

theorem like_contains (tid : String) (a b : List Char) (s : String)
    (hs : s.data = a ++ (tid.data ++ b)) :
    likeMatch (likePat tid) s = true := by
  have hpat : (likePat tid).data = '%' :: (tid.data ++ ['%']) := by
    simp [likePat, String.data_append]
  rw [likeMatch, hpat, hs]
  exact percent_consume (tid.data ++ ['%']) a (tid.data ++ b) (prefix_then_percent tid.data b)

theorem like_self (tid s : String) (h : s = tid) : likeMatch (likePat tid) s = true :=
  like_contains tid [] [] s (by simp [h])

theorem like_empty_pat (s : String) : likeMatch (likePat "") s = true :=
  like_contains "" [] s.data s (by simp)

theorem exactCond_false_of_notLike (tid : String) (x : Reg)
    (h : likeSel tid x = false) : exactCond tid x = false := by
  have hne : (x.ticket_id == tid) = false := by
    by_contra hc
    rw [Bool.not_eq_false, beq_iff_eq] at hc
    rw [likeSel, like_self tid x.ticket_id hc] at h
    exact absurd h (by simp)
  simp [exactCond, hne]

theorem likeCond_false_of_notLike (tid : String) (x : Reg)
    (h : likeSel tid x = false) : likeCond tid x = false := by
  rw [likeSel] at h
  simp [likeCond, h]

theorem quick_checkin_fresh (t : Nat) (pre post : List Reg) (r : Reg)
    (hst : r.status = "registered")
    (honly : ∀ x ∈ pre ++ post, likeSel r.ticket_id x = false) :
    quick_checkin t r.ticket_id (pre ++ r :: post) =
      ((true, some (r.first_name, r.last_name)), pre ++ checkRow t r :: post) := by
  have hpre : ∀ x ∈ pre, exactCond r.ticket_id x = false := fun x hx =>
    exactCond_false_of_notLike _ _ (honly x (List.mem_append_left _ hx))
  have hpost : ∀ x ∈ post, exactCond r.ticket_id x = false := fun x hx =>
    exactCond_false_of_notLike _ _ (honly x (List.mem_append_right _ hx))
  have hr : exactCond r.ticket_id r = true := by simp [exactCond, hst]
  have hp0 : List.countP (exactCond r.ticket_id) pre = 0 :=
    List.countP_eq_zero.mpr (fun a ha => by simp [hpre a ha])
  have hq0 : List.countP (exactCond r.ticket_id) post = 0 :=
    List.countP_eq_zero.mpr (fun a ha => by simp [hpost a ha])
  have hc1 : countExact r.ticket_id (pre ++ r :: post) = 1 := by
    simp [countExact, List.countP_append, List.countP_cons, hr, hp0, hq0]
  have hupd : exactUpdate t r.ticket_id (pre ++ r :: post) =
      pre ++ checkRow t r :: post := by
    simp only [exactUpdate, List.map_append, List.map_cons, if_pos hr]
    rw [list_map_self pre (fun x hx => by simp [hpre x hx]),
      list_map_self post (fun x hx => by simp [hpost x hx])]
  have hlikeC : likeSel r.ticket_id (checkRow t r) = true :=
    like_self r.ticket_id (checkRow t r).ticket_id rfl
  have hfind : List.find? (likeSel r.ticket_id) (pre ++ checkRow t r :: post) =
      some (checkRow t r) :=
    find_append_first _ pre post _
      (fun y hy => honly y (List.mem_append_left _ hy)) hlikeC
  rw [quick_checkin, if_neg (by omega : ¬ countExact r.ticket_id (pre ++ r :: post) = 0),
    hc1, hupd, selectResult, if_pos (by omega : (0:Nat) < 1), hfind]
  rfl

theorem quick_checkin_again (t2 t : Nat) (pre post : List Reg) (r : Reg)
    (honly : ∀ x ∈ pre ++ post, likeSel r.ticket_id x = false) :
    quick_checkin t2 r.ticket_id (pre ++ checkRow t r :: post) =
      ((false, some (r.first_name, r.last_name)), pre ++ checkRow t r :: post) := by
  have hpre : ∀ x ∈ pre, exactCond r.ticket_id x = false := fun x hx =>
    exactCond_false_of_notLike _ _ (honly x (List.mem_append_left _ hx))
  have hpost : ∀ x ∈ post, exactCond r.ticket_id x = false := fun x hx =>
    exactCond_false_of_notLike _ _ (honly x (List.mem_append_right _ hx))
  have hpreL : ∀ x ∈ pre, likeCond r.ticket_id x = false := fun x hx =>
    likeCond_false_of_notLike _ _ (honly x (List.mem_append_left _ hx))
  have hpostL : ∀ x ∈ post, likeCond r.ticket_id x = false := fun x hx =>
    likeCond_false_of_notLike _ _ (honly x (List.mem_append_right _ hx))
  have hrC : exactCond r.ticket_id (checkRow t r) = false := by
    simp [exactCond, checkRow]
  have hrCL : likeCond r.ticket_id (checkRow t r) = false := by
    simp [likeCond, checkRow]
  have hc0 : countExact r.ticket_id (pre ++ checkRow t r :: post) = 0 := by
    rw [countExact, List.countP_eq_zero]
    intro a ha
    rcases List.mem_append.mp ha with h | h
    · simp [hpre a h]
    · rcases List.mem_cons.mp h with h2 | h2
      · simp [h2, hrC]
      · simp [hpost a h2]
  have hall0 : ∀ a ∈ pre ++ checkRow t r :: post, exactCond r.ticket_id a = false := by
    intro a ha
    rcases List.mem_append.mp ha with h | h
    · exact hpre a h
    · rcases List.mem_cons.mp h with h2 | h2
      · rw [h2]; exact hrC
      · exact hpost a h2
  have hallL0 : ∀ a ∈ pre ++ checkRow t r :: post, likeCond r.ticket_id a = false := by
    intro a ha
    rcases List.mem_append.mp ha with h | h
    · exact hpreL a h
    · rcases List.mem_cons.mp h with h2 | h2
      · rw [h2]; exact hrCL
      · exact hpostL a h2
  have hupd : exactUpdate t2 r.ticket_id (pre ++ checkRow t r :: post) =
      pre ++ checkRow t r :: post := by
    rw [exactUpdate, list_map_self _ (fun x hx => by simp [hall0 x hx])]
  have hlupd : likeUpdate t2 r.ticket_id (pre ++ checkRow t r :: post) =
      pre ++ checkRow t r :: post := by
    rw [likeUpdate, list_map_self _ (fun x hx => by simp [hallL0 x hx])]
  have hcl0 : countLike r.ticket_id (pre ++ checkRow t r :: post) = 0 := by
    rw [countLike, List.countP_eq_zero]
    intro a ha
    simp [hallL0 a ha]
  have hlikeC : likeSel r.ticket_id (checkRow t r) = true :=
    like_self r.ticket_id (checkRow t r).ticket_id rfl
  have hfind : List.find? (likeSel r.ticket_id) (pre ++ checkRow t r :: post) =
      some (checkRow t r) :=
    find_append_first _ pre post _
      (fun y hy => honly y (List.mem_append_left _ hy)) hlikeC
  rw [quick_checkin, if_pos hc0, hupd, hlupd, hcl0, selectResult,
    if_neg (by omega : ¬ (0:Nat) < 0), hfind]
  simp [checkRow]

theorem list_map_congr {α β : Type} {f g : α → β} :
    ∀ l : List α, (∀ x ∈ l, f x = g x) → l.map f = l.map g
  | [], _ => rfl
  | x :: t, h => by
    have hx := h x (by simp)
    have ht := list_map_congr t (fun y hy => h y (by simp [hy]))
    simp [hx, ht]

/-- Claim C2 (amended): for a registered ticket whose identifier is not
contained (in the SQL `LIKE '%id%'` sense) in any other row's ticket_id, the
first `quick_checkin` with its identifier transitions it to `checked_in`,
sets `checkin_time`, and reports success with the attendee's name; the
post-state is a fixpoint of further calls with the same identifier, and every
such call returns the already-checked-in outcome `(false, some name)` —
distinct from the not-found outcome `(false, none)` — never success, never an
error, never a state change. -/
theorem c2_checkin_idempotent (t : Nat) (pre post : List Reg) (r : Reg)
    (hst : r.status = "registered")
    (honly : ∀ x ∈ pre ++ post, likeSel r.ticket_id x = false) :
    quick_checkin t r.ticket_id (pre ++ r :: post) =
      ((true, some (r.first_name, r.last_name)), pre ++ checkRow t r :: post) ∧
    (checkRow t r).status = "checked_in" ∧
    (checkRow t r).checkin_time = some t ∧
    ∀ t2 : Nat, quick_checkin t2 r.ticket_id (pre ++ checkRow t r :: post) =
      ((false, some (r.first_name, r.last_name)), pre ++ checkRow t r :: post) :=
  ⟨quick_checkin_fresh t pre post r hst honly, rfl, rfl,
    fun t2 => quick_checkin_again t2 t pre post r honly⟩

/-- Witness for `c2_checkin_idempotent` at a concrete one-row table. -/
theorem c2_checkin_idempotent_witness :
    quick_checkin 1 "RWT-AB12CD34"
        ([] ++ (⟨"RWT-AB12CD34", "Ann", "B", "a@b", "1", "registered", none⟩ : Reg) :: []) =
      ((true, some ("Ann", "B")),
        [] ++ checkRow 1 ⟨"RWT-AB12CD34", "Ann", "B", "a@b", "1", "registered", none⟩ :: []) ∧
    (checkRow 1 (⟨"RWT-AB12CD34", "Ann", "B", "a@b", "1", "registered", none⟩ : Reg)).status =
      "checked_in" ∧
    (checkRow 1 (⟨"RWT-AB12CD34", "Ann", "B", "a@b", "1", "registered", none⟩ : Reg)).checkin_time =
      some 1 ∧
    ∀ t2 : Nat, quick_checkin t2 "RWT-AB12CD34"
        ([] ++ checkRow 1 ⟨"RWT-AB12CD34", "Ann", "B", "a@b", "1", "registered", none⟩ :: []) =
      ((false, some ("Ann", "B")),
        [] ++ checkRow 1 ⟨"RWT-AB12CD34", "Ann", "B", "a@b", "1", "registered", none⟩ :: []) :=
  c2_checkin_idempotent 1 [] [] ⟨"RWT-AB12CD34", "Ann", "B", "a@b", "1", "registered", none⟩
    rfl (by simp)

/-- Counterexample to claim C2 as stated: with a second registration whose
ticket_id strictly contains the identifier, the second call with the very
same identifier reports success again (the `LIKE` fallback checks in the
other registration), contradicting "never reports success again". -/
theorem c2_counterexample :
    (quick_checkin 2 "RWT-AB12CD34"
      ((quick_checkin 1 "RWT-AB12CD34"
        [⟨"XRWT-AB12CD34Z", "Eve", "K", "e@k", "2", "registered", none⟩,
         ⟨"RWT-AB12CD34", "Ann", "B", "a@b", "1", "registered", none⟩]).2)).1.1 = true := by
  have hlikeE : likeMatch (likePat "RWT-AB12CD34") "XRWT-AB12CD34Z" = true :=
    like_contains "RWT-AB12CD34" "X".data "Z".data _ (by decide)
  have h1 : (quick_checkin 1 "RWT-AB12CD34"
      [⟨"XRWT-AB12CD34Z", "Eve", "K", "e@k", "2", "registered", none⟩,
       ⟨"RWT-AB12CD34", "Ann", "B", "a@b", "1", "registered", none⟩]).2 =
      [⟨"XRWT-AB12CD34Z", "Eve", "K", "e@k", "2", "registered", none⟩,
       ⟨"RWT-AB12CD34", "Ann", "B", "a@b", "1", "checked_in", some 1⟩] := by
    rw [quick_checkin, if_neg (by decide)]
    show exactUpdate 1 "RWT-AB12CD34" _ = _
    decide
  rw [h1, quick_checkin, if_pos (by decide)]
  have hex : exactUpdate 2 "RWT-AB12CD34"
      [⟨"XRWT-AB12CD34Z", "Eve", "K", "e@k", "2", "registered", none⟩,
       ⟨"RWT-AB12CD34", "Ann", "B", "a@b", "1", "checked_in", some 1⟩] =
      [⟨"XRWT-AB12CD34Z", "Eve", "K", "e@k", "2", "registered", none⟩,
       ⟨"RWT-AB12CD34", "Ann", "B", "a@b", "1", "checked_in", some 1⟩] := by decide
  have hlcE : likeCond "RWT-AB12CD34"
      ⟨"XRWT-AB12CD34Z", "Eve", "K", "e@k", "2", "registered", none⟩ = true := by
    simp [likeCond, hlikeE]
  have hlcA : likeCond "RWT-AB12CD34"
      ⟨"RWT-AB12CD34", "Ann", "B", "a@b", "1", "checked_in", some 1⟩ = false := by
    simp [likeCond]
  have hcl : countLike "RWT-AB12CD34"
      [⟨"XRWT-AB12CD34Z", "Eve", "K", "e@k", "2", "registered", none⟩,
       ⟨"RWT-AB12CD34", "Ann", "B", "a@b", "1", "checked_in", some 1⟩] = 1 := by
    simp [countLike, List.countP_cons, hlcE, hlcA]
  rw [hex, hcl, selectResult, if_pos (by omega : (0:Nat) < 1)]
  cases hf : List.find? (likeSel "RWT-AB12CD34")
      (likeUpdate 2 "RWT-AB12CD34"
        [⟨"XRWT-AB12CD34Z", "Eve", "K", "e@k", "2", "registered", none⟩,
         ⟨"RWT-AB12CD34", "Ann", "B", "a@b", "1", "checked_in", some 1⟩]) with
  | none => rfl
  | some x => rfl

/-- Claim C3: `quick_checkin` first attempts the exact conditional update;
when it transitions at least one row the final table is that exact update
alone (no fallback), and only when it transitions no row — equivalently, when
no row has this exact ticket_id in status `registered` — is the table the
result of the contains-match fallback update. -/
theorem c3_lookup_policy (now : Nat) (tid : String) (db : List Reg) :
    (countExact tid db ≠ 0 →
      (quick_checkin now tid db).2 = exactUpdate now tid db) ∧
    (countExact tid db = 0 →
      exactUpdate now tid db = db ∧
      (quick_checkin now tid db).2 = likeUpdate now tid db) ∧
    (countExact tid db = 0 ↔ ∀ r ∈ db, r.ticket_id = tid → r.status ≠ "registered") := by
  refine ⟨?_, ?_, ?_⟩
  · intro h
    rw [quick_checkin, if_neg h]
  · intro h
    have hall : ∀ x ∈ db, exactCond tid x = false := by
      intro x hx
      have := (List.countP_eq_zero.mp h) x hx
      simpa using this
    have hid : exactUpdate now tid db = db := by
      rw [exactUpdate, list_map_self _ (fun x hx => by simp [hall x hx])]
    refine ⟨hid, ?_⟩
    rw [quick_checkin, if_pos h, hid]
  · rw [countExact, List.countP_eq_zero]
    constructor
    · intro h r hr he hs
      have := h r hr
      simp [exactCond, he, hs] at this
    · intro h r hr
      simp only [exactCond, Bool.and_eq_true, beq_iff_eq, not_and]
      intro he
      exact h r hr he

/-- Witness for `c3_lookup_policy` at a concrete one-row table. -/
theorem c3_lookup_policy_witness :
    (countExact "RWT-AB12CD34"
        [(⟨"RWT-AB12CD34", "Ann", "B", "a@b", "1", "registered", none⟩ : Reg)] ≠ 0 →
      (quick_checkin 1 "RWT-AB12CD34"
        [(⟨"RWT-AB12CD34", "Ann", "B", "a@b", "1", "registered", none⟩ : Reg)]).2 =
        exactUpdate 1 "RWT-AB12CD34"
          [(⟨"RWT-AB12CD34", "Ann", "B", "a@b", "1", "registered", none⟩ : Reg)]) ∧
    (countExact "RWT-AB12CD34"
        [(⟨"RWT-AB12CD34", "Ann", "B", "a@b", "1", "registered", none⟩ : Reg)] = 0 →
      exactUpdate 1 "RWT-AB12CD34"
          [(⟨"RWT-AB12CD34", "Ann", "B", "a@b", "1", "registered", none⟩ : Reg)] =
        [(⟨"RWT-AB12CD34", "Ann", "B", "a@b", "1", "registered", none⟩ : Reg)] ∧
      (quick_checkin 1 "RWT-AB12CD34"
        [(⟨"RWT-AB12CD34", "Ann", "B", "a@b", "1", "registered", none⟩ : Reg)]).2 =
        likeUpdate 1 "RWT-AB12CD34"
          [(⟨"RWT-AB12CD34", "Ann", "B", "a@b", "1", "registered", none⟩ : Reg)]) ∧
    (countExact "RWT-AB12CD34"
        [(⟨"RWT-AB12CD34", "Ann", "B", "a@b", "1", "registered", none⟩ : Reg)] = 0 ↔
      ∀ r ∈ [(⟨"RWT-AB12CD34", "Ann", "B", "a@b", "1", "registered", none⟩ : Reg)],
        r.ticket_id = "RWT-AB12CD34" → r.status ≠ "registered") :=
  c3_lookup_policy 1 "RWT-AB12CD34"
    [⟨"RWT-AB12CD34", "Ann", "B", "a@b", "1", "registered", none⟩]

/-- Claim C7: when the exact update transitions no row, the fallback is a
single UPDATE that transitions every registered row whose ticket_id matches
`LIKE '%id%'`; with the empty-string identifier (and no stored empty
ticket_id, which `add_registration` guarantees) this transitions every
registered attendee in one call; and the name reported on success comes from
a separate contains-match SELECT whose first row can be a row that was not
updated, as the concrete two-row run shows (the reported "Zoe" row was
already checked in; the "Amy" row is the one transitioned). -/
theorem c7_fallback_updates_every_match :
    (∀ (now : Nat) (tid : String) (db : List Reg), countExact tid db = 0 →
      ∀ r ∈ db, likeSel tid r = true → r.status = "registered" →
        checkRow now r ∈ (quick_checkin now tid db).2) ∧
    (∀ (now : Nat) (db : List Reg), (∀ r ∈ db, r.ticket_id ≠ "") →
      (quick_checkin now "" db).2 =
        db.map (fun r => if r.status == "registered" then checkRow now r else r)) ∧
    (quick_checkin 5 "AB"
        [⟨"AB-111111", "Zoe", "Q", "z@q", "3", "checked_in", some 0⟩,
         ⟨"AB-222222", "Amy", "R", "a@r", "4", "registered", none⟩] =
      ((true, some ("Zoe", "Q")),
        [⟨"AB-111111", "Zoe", "Q", "z@q", "3", "checked_in", some 0⟩,
         checkRow 5 ⟨"AB-222222", "Amy", "R", "a@r", "4", "registered", none⟩])) := by
  refine ⟨?_, ?_, ?_⟩
  · intro now tid db h r hr hlike hstat
    have hall : ∀ x ∈ db, exactCond tid x = false := by
      intro x hx
      simpa using (List.countP_eq_zero.mp h) x hx
    have hid : exactUpdate now tid db = db := by
      rw [exactUpdate, list_map_self _ (fun x hx => by simp [hall x hx])]
    rw [quick_checkin, if_pos h, hid]
    show checkRow now r ∈ likeUpdate now tid db
    have hcond : likeCond tid r = true := by
      rw [likeSel] at hlike
      simp [likeCond, hlike, hstat]
    have : (if likeCond tid r then checkRow now r else r) = checkRow now r := if_pos hcond
    rw [likeUpdate, ← this]
    exact List.mem_map_of_mem _ hr
  · intro now db h
    have hc0 : countExact "" db = 0 := by
      rw [countExact, List.countP_eq_zero]
      intro x hx
      simp [exactCond, h x hx]
    have hall : ∀ x ∈ db, exactCond "" x = false := by
      intro x hx
      simp [exactCond, h x hx]
    have hid : exactUpdate now "" db = db := by
      rw [exactUpdate, list_map_self _ (fun x hx => by simp [hall x hx])]
    rw [quick_checkin, if_pos hc0, hid]
    show likeUpdate now "" db = _
    rw [likeUpdate]
    apply list_map_congr
    intro x _
    have : likeCond "" x = (x.status == "registered") := by
      simp [likeCond, like_empty_pat]
    rw [this]
  · have hlike1 : likeMatch (likePat "AB") "AB-111111" = true :=
      like_contains "AB" [] "-111111".data _ (by decide)
    have hlike2 : likeMatch (likePat "AB") "AB-222222" = true :=
      like_contains "AB" [] "-222222".data _ (by decide)
    have hc0 : countExact "AB"
        [⟨"AB-111111", "Zoe", "Q", "z@q", "3", "checked_in", some 0⟩,
         ⟨"AB-222222", "Amy", "R", "a@r", "4", "registered", none⟩] = 0 := by decide
    have hex : exactUpdate 5 "AB"
        [⟨"AB-111111", "Zoe", "Q", "z@q", "3", "checked_in", some 0⟩,
         ⟨"AB-222222", "Amy", "R", "a@r", "4", "registered", none⟩] =
        [⟨"AB-111111", "Zoe", "Q", "z@q", "3", "checked_in", some 0⟩,
         ⟨"AB-222222", "Amy", "R", "a@r", "4", "registered", none⟩] := by decide
    have hlc1 : likeCond "AB"
        ⟨"AB-111111", "Zoe", "Q", "z@q", "3", "checked_in", some 0⟩ = false := by
      simp [likeCond]
    have hlc2 : likeCond "AB"
        ⟨"AB-222222", "Amy", "R", "a@r", "4", "registered", none⟩ = true := by
      simp [likeCond, hlike2]
    have hsel1 : likeSel "AB"
        ⟨"AB-111111", "Zoe", "Q", "z@q", "3", "checked_in", some 0⟩ = true := by
      simp [likeSel, hlike1]
    have hcl : countLike "AB"
        [⟨"AB-111111", "Zoe", "Q", "z@q", "3", "checked_in", some 0⟩,
         ⟨"AB-222222", "Amy", "R", "a@r", "4", "registered", none⟩] = 1 := by
      simp [countLike, List.countP_cons, hlc1, hlc2]
    have hlu : likeUpdate 5 "AB"
        [⟨"AB-111111", "Zoe", "Q", "z@q", "3", "checked_in", some 0⟩,
         ⟨"AB-222222", "Amy", "R", "a@r", "4", "registered", none⟩] =
        [⟨"AB-111111", "Zoe", "Q", "z@q", "3", "checked_in", some 0⟩,
         checkRow 5 ⟨"AB-222222", "Amy", "R", "a@r", "4", "registered", none⟩] := by
      simp [likeUpdate, hlc1, hlc2]
    rw [quick_checkin, if_pos hc0, hex, hlu, hcl, selectResult,
      if_pos (by omega : (0:Nat) < 1), List.find?_cons_of_pos _ hsel1]

/-- Witness for `c7_fallback_updates_every_match` (empty-identifier part) at
a concrete table. -/
theorem c7_fallback_witness :
    (quick_checkin 4 ""
        [(⟨"AB-111111", "Zoe", "Q", "z@q", "3", "registered", none⟩ : Reg)]).2 =
      [(⟨"AB-111111", "Zoe", "Q", "z@q", "3", "registered", none⟩ : Reg)].map
        (fun r => if r.status == "registered" then checkRow 4 r else r) :=
  c7_fallback_updates_every_match.2.1 4
    [(⟨"AB-111111", "Zoe", "Q", "z@q", "3", "registered", none⟩ : Reg)] (by decide)

/-!
## Claim C8: two interleaved check-in calls
-/

theorem countExact_fresh (pre post : List Reg) (r : Reg)
    (hst : r.status = "registered")
    (honly : ∀ x ∈ pre ++ post, likeSel r.ticket_id x = false) :
    countExact r.ticket_id (pre ++ r :: post) = 1 := by
  have hpre : ∀ x ∈ pre, exactCond r.ticket_id x = false := fun x hx =>
    exactCond_false_of_notLike _ _ (honly x (List.mem_append_left _ hx))
  have hpost : ∀ x ∈ post, exactCond r.ticket_id x = false := fun x hx =>
    exactCond_false_of_notLike _ _ (honly x (List.mem_append_right _ hx))
  have hr : exactCond r.ticket_id r = true := by simp [exactCond, hst]
  have hp0 : List.countP (exactCond r.ticket_id) pre = 0 :=
    List.countP_eq_zero.mpr (fun a ha => by simp [hpre a ha])
  have hq0 : List.countP (exactCond r.ticket_id) post = 0 :=
    List.countP_eq_zero.mpr (fun a ha => by simp [hpost a ha])
  simp [countExact, List.countP_append, List.countP_cons, hr, hp0, hq0]

theorem exactUpdate_fresh (n : Nat) (pre post : List Reg) (r : Reg)
    (hst : r.status = "registered")
    (honly : ∀ x ∈ pre ++ post, likeSel r.ticket_id x = false) :
    exactUpdate n r.ticket_id (pre ++ r :: post) = pre ++ checkRow n r :: post := by
  have hpre : ∀ x ∈ pre, exactCond r.ticket_id x = false := fun x hx =>
    exactCond_false_of_notLike _ _ (honly x (List.mem_append_left _ hx))
  have hpost : ∀ x ∈ post, exactCond r.ticket_id x = false := fun x hx =>
    exactCond_false_of_notLike _ _ (honly x (List.mem_append_right _ hx))
  have hr : exactCond r.ticket_id r = true := by simp [exactCond, hst]
  simp only [exactUpdate, List.map_append, List.map_cons, if_pos hr]
  rw [list_map_self pre (fun x hx => by simp [hpre x hx]),
    list_map_self post (fun x hx => by simp [hpost x hx])]

theorem exactCond_all_checked (t : Nat) (pre post : List Reg) (r : Reg)
    (honly : ∀ x ∈ pre ++ post, likeSel r.ticket_id x = false) :
    ∀ a ∈ pre ++ checkRow t r :: post, exactCond r.ticket_id a = false := by
  intro a ha
  rcases List.mem_append.mp ha with h | h
  · exact exactCond_false_of_notLike _ _ (honly a (List.mem_append_left _ h))
  · rcases List.mem_cons.mp h with h2 | h2
    · rw [h2]; simp [exactCond, checkRow]
    · exact exactCond_false_of_notLike _ _ (honly a (List.mem_append_right _ h2))

theorem likeCond_all_checked (t : Nat) (pre post : List Reg) (r : Reg)
    (honly : ∀ x ∈ pre ++ post, likeSel r.ticket_id x = false) :
    ∀ a ∈ pre ++ checkRow t r :: post, likeCond r.ticket_id a = false := by
  intro a ha
  rcases List.mem_append.mp ha with h | h
  · exact likeCond_false_of_notLike _ _ (honly a (List.mem_append_left _ h))
  · rcases List.mem_cons.mp h with h2 | h2
    · rw [h2]; simp [likeCond, checkRow]
    · exact likeCond_false_of_notLike _ _ (honly a (List.mem_append_right _ h2))

theorem countExact_checked (t : Nat) (pre post : List Reg) (r : Reg)
    (honly : ∀ x ∈ pre ++ post, likeSel r.ticket_id x = false) :
    countExact r.ticket_id (pre ++ checkRow t r :: post) = 0 := by
  rw [countExact, List.countP_eq_zero]
  intro a ha
  simp [exactCond_all_checked t pre post r honly a ha]

theorem exactUpdate_checked (n t : Nat) (pre post : List Reg) (r : Reg)
    (honly : ∀ x ∈ pre ++ post, likeSel r.ticket_id x = false) :
    exactUpdate n r.ticket_id (pre ++ checkRow t r :: post) =
      pre ++ checkRow t r :: post := by
  rw [exactUpdate,
    list_map_self _ (fun x hx => by simp [exactCond_all_checked t pre post r honly x hx])]

theorem countLike_checked (t : Nat) (pre post : List Reg) (r : Reg)
    (honly : ∀ x ∈ pre ++ post, likeSel r.ticket_id x = false) :
    countLike r.ticket_id (pre ++ checkRow t r :: post) = 0 := by
  rw [countLike, List.countP_eq_zero]
  intro a ha
  simp [likeCond_all_checked t pre post r honly a ha]

theorem likeUpdate_checked (n t : Nat) (pre post : List Reg) (r : Reg)
    (honly : ∀ x ∈ pre ++ post, likeSel r.ticket_id x = false) :
    likeUpdate n r.ticket_id (pre ++ checkRow t r :: post) =
      pre ++ checkRow t r :: post := by
  rw [likeUpdate,
    list_map_self _ (fun x hx => by simp [likeCond_all_checked t pre post r honly x hx])]

theorem find_checked (t : Nat) (pre post : List Reg) (r : Reg)
    (honly : ∀ x ∈ pre ++ post, likeSel r.ticket_id x = false) :
    List.find? (likeSel r.ticket_id) (pre ++ checkRow t r :: post) =
      some (checkRow t r) :=
  find_append_first _ pre post _
    (fun y hy => honly y (List.mem_append_left _ hy))
    (like_self r.ticket_id (checkRow t r).ticket_id rfl)

theorem selectResult_checked_one (t : Nat) (pre post : List Reg) (r : Reg)
    (honly : ∀ x ∈ pre ++ post, likeSel r.ticket_id x = false) :
    selectResult r.ticket_id (pre ++ checkRow t r :: post) 1 =
      (true, some (r.first_name, r.last_name)) := by
  rw [selectResult, if_pos (by omega : (0:Nat) < 1), find_checked t pre post r honly]
  rfl

theorem selectResult_checked_zero (t : Nat) (pre post : List Reg) (r : Reg)
    (honly : ∀ x ∈ pre ++ post, likeSel r.ticket_id x = false) :
    selectResult r.ticket_id (pre ++ checkRow t r :: post) 0 =
      (false, some (r.first_name, r.last_name)) := by
  rw [selectResult, if_neg (by omega : ¬ (0:Nat) < 0), find_checked t pre post r honly]
  simp [checkRow]


theorem thStep_win (nw t : Nat) (pre post : List Reg) (r : Reg)
    (honly : ∀ x ∈ pre ++ post, likeSel r.ticket_id x = false)
    (th : Th) (hw : c8win (r.first_name, r.last_name) th) :
    (thStep nw r.ticket_id (pre ++ checkRow t r :: post) th).1 =
      pre ++ checkRow t r :: post ∧
    c8win (r.first_name, r.last_name)
      (thStep nw r.ticket_id (pre ++ checkRow t r :: post) th).2 := by
  rcases hw with h | h | h <;> subst h
  · exact ⟨by simp [thStep], by simp [thStep]; exact Or.inr (Or.inl rfl)⟩
  · refine ⟨by simp [thStep], ?_⟩
    simp only [thStep, selectResult_checked_one t pre post r honly]
    exact Or.inr (Or.inr rfl)
  · exact ⟨by simp [thStep], by simp [thStep]; exact Or.inr (Or.inr rfl)⟩

theorem thStep_lose (nw t : Nat) (pre post : List Reg) (r : Reg)
    (honly : ∀ x ∈ pre ++ post, likeSel r.ticket_id x = false)
    (th : Th) (hl : c8lose (r.first_name, r.last_name) th) :
    (thStep nw r.ticket_id (pre ++ checkRow t r :: post) th).1 =
      pre ++ checkRow t r :: post ∧
    c8lose (r.first_name, r.last_name)
      (thStep nw r.ticket_id (pre ++ checkRow t r :: post) th).2 := by
  rcases hl with h | h | h | h <;> subst h
  · refine ⟨?_, ?_⟩
    · simp [thStep, thInit, exactUpdate_checked nw t pre post r honly]
    · simp only [thStep, thInit, countExact_checked t pre post r honly]
      exact Or.inr (Or.inl rfl)
  · refine ⟨?_, ?_⟩
    · simp [thStep, likeUpdate_checked nw t pre post r honly]
    · simp only [thStep, if_pos rfl, countLike_checked t pre post r honly]
      exact Or.inr (Or.inr (Or.inl rfl))
  · refine ⟨by simp [thStep], ?_⟩
    simp only [thStep, selectResult_checked_zero t pre post r honly]
    exact Or.inr (Or.inr (Or.inr rfl))
  · exact ⟨by simp [thStep], by simp [thStep]; exact Or.inr (Or.inr (Or.inr rfl))⟩

theorem c8Inv_step (nA nB : Nat) (pre post : List Reg) (r : Reg)
    (hst : r.status = "registered")
    (honly : ∀ x ∈ pre ++ post, likeSel r.ticket_id x = false)
    (c : Conf) (who : Bool) (h : c8Inv pre post r c) :
    c8Inv pre post r (schedStep nA nB r.ticket_id c who) := by
  obtain ⟨db, a, b⟩ := c
  rcases h with h0 | ⟨n, hdb, hcase⟩
  · have hdb : db = pre ++ r :: post := congrArg Conf.db h0
    have ha : a = thInit := congrArg Conf.a h0
    have hb : b = thInit := congrArg Conf.b h0
    subst hdb; subst ha; subst hb
    cases who
    · have hss : schedStep nA nB r.ticket_id ⟨pre ++ r :: post, thInit, thInit⟩ false =
          ⟨pre ++ checkRow nB r :: post, thInit, ⟨1, 1, 1, (false, none)⟩⟩ := by
        simp [schedStep, thStep, thInit, countExact_fresh pre post r hst honly,
          exactUpdate_fresh nB pre post r hst honly]
      rw [hss]
      exact Or.inr ⟨nB, rfl, Or.inr ⟨Or.inl rfl, Or.inl rfl⟩⟩
    · have hss : schedStep nA nB r.ticket_id ⟨pre ++ r :: post, thInit, thInit⟩ true =
          ⟨pre ++ checkRow nA r :: post, ⟨1, 1, 1, (false, none)⟩, thInit⟩ := by
        simp [schedStep, thStep, thInit, countExact_fresh pre post r hst honly,
          exactUpdate_fresh nA pre post r hst honly]
      rw [hss]
      exact Or.inr ⟨nA, rfl, Or.inl ⟨Or.inl rfl, Or.inl rfl⟩⟩
  · have hdb2 : db = pre ++ checkRow n r :: post := hdb
    subst hdb2
    cases who
    · have hss : schedStep nA nB r.ticket_id ⟨pre ++ checkRow n r :: post, a, b⟩ false =
          ⟨(thStep nB r.ticket_id (pre ++ checkRow n r :: post) b).1,
           a, (thStep nB r.ticket_id (pre ++ checkRow n r :: post) b).2⟩ := by
        simp [schedStep]
      rw [hss]
      rcases hcase with ⟨hw, hl⟩ | ⟨hw, hl⟩
      · have hs := thStep_lose nB n pre post r honly b hl
        exact Or.inr ⟨n, hs.1, Or.inl ⟨hw, hs.2⟩⟩
      · have hs := thStep_win nB n pre post r honly b hw
        exact Or.inr ⟨n, hs.1, Or.inr ⟨hs.2, hl⟩⟩
    · have hss : schedStep nA nB r.ticket_id ⟨pre ++ checkRow n r :: post, a, b⟩ true =
          ⟨(thStep nA r.ticket_id (pre ++ checkRow n r :: post) a).1,
           (thStep nA r.ticket_id (pre ++ checkRow n r :: post) a).2, b⟩ := by
        simp [schedStep]
      rw [hss]
      rcases hcase with ⟨hw, hl⟩ | ⟨hw, hl⟩
      · have hs := thStep_win nA n pre post r honly a hw
        exact Or.inr ⟨n, hs.1, Or.inl ⟨hs.2, hl⟩⟩
      · have hs := thStep_lose nA n pre post r honly a hl
        exact Or.inr ⟨n, hs.1, Or.inr ⟨hw, hs.2⟩⟩

theorem c8Inv_run (nA nB : Nat) (pre post : List Reg) (r : Reg)
    (hst : r.status = "registered")
    (honly : ∀ x ∈ pre ++ post, likeSel r.ticket_id x = false)
    (s : List Bool) :
    ∀ c : Conf, c8Inv pre post r c →
      c8Inv pre post r (runSched nA nB r.ticket_id s c) := by
  induction s with
  | nil => intro c h; simpa [runSched] using h
  | cons who t ih =>
    intro c h
    show c8Inv pre post r (List.foldl _ c (who :: t))
    rw [List.foldl_cons]
    exact ih _ (c8Inv_step nA nB pre post r hst honly c who h)

theorem c8win_done {nm : String × String} {th : Th}
    (hw : c8win nm th) (h3 : th.pc = 3) : th.res = (true, some nm) := by
  rcases hw with h | h | h <;> subst h
  · exact absurd h3 (by decide)
  · exact absurd h3 (by decide)
  · rfl

theorem c8lose_done {nm : String × String} {th : Th}
    (hl : c8lose nm th) (h3 : th.pc = 3) : th.res = (false, some nm) := by
  rcases hl with h | h | h | h <;> subst h
  · exact absurd h3 (by decide)
  · exact absurd h3 (by decide)
  · exact absurd h3 (by decide)
  · rfl

/-- Claim C8 (amended): for a registered ticket whose identifier is not
`LIKE`-contained in any other row's ticket_id, in every interleaving of the
statements of two `quick_checkin` calls with that identifier in which both
calls finish, exactly one call reports success with the attendee's name and
the other reports the already-checked-in outcome with the name — never both
succeed, never either reports not-found.  The exclusivity comes from the
atomic conditional UPDATE (rowcount-checked), not from read-then-write.
Without the containment proviso the claim fails: see the counterexample,
where both interleaved calls report success.  -/
theorem c8_concurrent_exclusive (nA nB : Nat) (pre post : List Reg) (r : Reg)
    (hst : r.status = "registered")
    (honly : ∀ x ∈ pre ++ post, likeSel r.ticket_id x = false)
    (s : List Bool)
    (hA : (runSched nA nB r.ticket_id s ⟨pre ++ r :: post, thInit, thInit⟩).a.pc = 3)
    (hB : (runSched nA nB r.ticket_id s ⟨pre ++ r :: post, thInit, thInit⟩).b.pc = 3) :
    ((runSched nA nB r.ticket_id s ⟨pre ++ r :: post, thInit, thInit⟩).a.res =
        (true, some (r.first_name, r.last_name)) ∧
      (runSched nA nB r.ticket_id s ⟨pre ++ r :: post, thInit, thInit⟩).b.res =
        (false, some (r.first_name, r.last_name))) ∨
    ((runSched nA nB r.ticket_id s ⟨pre ++ r :: post, thInit, thInit⟩).b.res =
        (true, some (r.first_name, r.last_name)) ∧
      (runSched nA nB r.ticket_id s ⟨pre ++ r :: post, thInit, thInit⟩).a.res =
        (false, some (r.first_name, r.last_name))) := by
  have hinv := c8Inv_run nA nB pre post r hst honly s
    ⟨pre ++ r :: post, thInit, thInit⟩ (Or.inl rfl)
  rcases hinv with h0 | ⟨n, hdb, hcase⟩
  · rw [h0] at hA
    simp [thInit] at hA
  · rcases hcase with ⟨hw, hl⟩ | ⟨hw, hl⟩
    · exact Or.inl ⟨c8win_done hw hA, c8lose_done hl hB⟩
    · exact Or.inr ⟨c8win_done hw hB, c8lose_done hl hA⟩
/-- Counterexample to claim C8 as stated: on a table where another
registration's ticket_id strictly contains the identifier, running call A to
completion and then call B makes both calls report success (B's fallback
UPDATE checks in the containing row), contradicting "exactly one call reports
success". -/
theorem c8_counterexample :
    ((runSched 1 2 "RWT-AB12CD34" [true, true, true, false, false, false]
        ⟨[⟨"XRWT-AB12CD34Z", "Eve", "K", "e@k", "2", "registered", none⟩,
          ⟨"RWT-AB12CD34", "Ann", "B", "a@b", "1", "registered", none⟩],
         thInit, thInit⟩).a.res.1 = true) ∧
    ((runSched 1 2 "RWT-AB12CD34" [true, true, true, false, false, false]
        ⟨[⟨"XRWT-AB12CD34Z", "Eve", "K", "e@k", "2", "registered", none⟩,
          ⟨"RWT-AB12CD34", "Ann", "B", "a@b", "1", "registered", none⟩],
         thInit, thInit⟩).b.res.1 = true) := by
  have hlikeE : likeMatch (likePat "RWT-AB12CD34") "XRWT-AB12CD34Z" = true :=
    like_contains "RWT-AB12CD34" "X".data "Z".data _ (by decide)
  have hselE : likeSel "RWT-AB12CD34"
      ⟨"XRWT-AB12CD34Z", "Eve", "K", "e@k", "2", "registered", none⟩ = true := by
    simp [likeSel, hlikeE]
  have hselE2 : likeSel "RWT-AB12CD34"
      ⟨"XRWT-AB12CD34Z", "Eve", "K", "e@k", "2", "checked_in", some 2⟩ = true := by
    simp [likeSel, hlikeE]
  have hce1 : countExact "RWT-AB12CD34"
      [⟨"XRWT-AB12CD34Z", "Eve", "K", "e@k", "2", "registered", none⟩,
       ⟨"RWT-AB12CD34", "Ann", "B", "a@b", "1", "registered", none⟩] = 1 := by decide
  have hex1 : exactUpdate 1 "RWT-AB12CD34"
      [⟨"XRWT-AB12CD34Z", "Eve", "K", "e@k", "2", "registered", none⟩,
       ⟨"RWT-AB12CD34", "Ann", "B", "a@b", "1", "registered", none⟩] =
      [⟨"XRWT-AB12CD34Z", "Eve", "K", "e@k", "2", "registered", none⟩,
       ⟨"RWT-AB12CD34", "Ann", "B", "a@b", "1", "checked_in", some 1⟩] := by decide
  have hs1 : schedStep 1 2 "RWT-AB12CD34"
      ⟨[⟨"XRWT-AB12CD34Z", "Eve", "K", "e@k", "2", "registered", none⟩,
        ⟨"RWT-AB12CD34", "Ann", "B", "a@b", "1", "registered", none⟩],
       thInit, thInit⟩ true =
      ⟨[⟨"XRWT-AB12CD34Z", "Eve", "K", "e@k", "2", "registered", none⟩,
        ⟨"RWT-AB12CD34", "Ann", "B", "a@b", "1", "checked_in", some 1⟩],
       ⟨1, 1, 1, (false, none)⟩, thInit⟩ := by
    simp [schedStep, thStep, thInit, hce1, hex1]
  have hs2 : schedStep 1 2 "RWT-AB12CD34"
      ⟨[⟨"XRWT-AB12CD34Z", "Eve", "K", "e@k", "2", "registered", none⟩,
        ⟨"RWT-AB12CD34", "Ann", "B", "a@b", "1", "checked_in", some 1⟩],
       ⟨1, 1, 1, (false, none)⟩, thInit⟩ true =
      ⟨[⟨"XRWT-AB12CD34Z", "Eve", "K", "e@k", "2", "registered", none⟩,
        ⟨"RWT-AB12CD34", "Ann", "B", "a@b", "1", "checked_in", some 1⟩],
       ⟨2, 1, 1, (false, none)⟩, thInit⟩ := by
    simp [schedStep, thStep]
  have hsr1 : selectResult "RWT-AB12CD34"
      [⟨"XRWT-AB12CD34Z", "Eve", "K", "e@k", "2", "registered", none⟩,
       ⟨"RWT-AB12CD34", "Ann", "B", "a@b", "1", "checked_in", some 1⟩] 1 =
      (true, some ("Eve", "K")) := by
    rw [selectResult, if_pos (by omega : (0:Nat) < 1), List.find?_cons_of_pos _ hselE]
  have hs3 : schedStep 1 2 "RWT-AB12CD34"
      ⟨[⟨"XRWT-AB12CD34Z", "Eve", "K", "e@k", "2", "registered", none⟩,
        ⟨"RWT-AB12CD34", "Ann", "B", "a@b", "1", "checked_in", some 1⟩],
       ⟨2, 1, 1, (false, none)⟩, thInit⟩ true =
      ⟨[⟨"XRWT-AB12CD34Z", "Eve", "K", "e@k", "2", "registered", none⟩,
        ⟨"RWT-AB12CD34", "Ann", "B", "a@b", "1", "checked_in", some 1⟩],
       ⟨3, 1, 1, (true, some ("Eve", "K"))⟩, thInit⟩ := by
    simp [schedStep, thStep, hsr1]
  have hce2 : countExact "RWT-AB12CD34"
      [⟨"XRWT-AB12CD34Z", "Eve", "K", "e@k", "2", "registered", none⟩,
       ⟨"RWT-AB12CD34", "Ann", "B", "a@b", "1", "checked_in", some 1⟩] = 0 := by decide
  have hex2 : exactUpdate 2 "RWT-AB12CD34"
      [⟨"XRWT-AB12CD34Z", "Eve", "K", "e@k", "2", "registered", none⟩,
       ⟨"RWT-AB12CD34", "Ann", "B", "a@b", "1", "checked_in", some 1⟩] =
      [⟨"XRWT-AB12CD34Z", "Eve", "K", "e@k", "2", "registered", none⟩,
       ⟨"RWT-AB12CD34", "Ann", "B", "a@b", "1", "checked_in", some 1⟩] := by decide
  have hs4 : schedStep 1 2 "RWT-AB12CD34"
      ⟨[⟨"XRWT-AB12CD34Z", "Eve", "K", "e@k", "2", "registered", none⟩,
        ⟨"RWT-AB12CD34", "Ann", "B", "a@b", "1", "checked_in", some 1⟩],
       ⟨3, 1, 1, (true, some ("Eve", "K"))⟩, thInit⟩ false =
      ⟨[⟨"XRWT-AB12CD34Z", "Eve", "K", "e@k", "2", "registered", none⟩,
        ⟨"RWT-AB12CD34", "Ann", "B", "a@b", "1", "checked_in", some 1⟩],
       ⟨3, 1, 1, (true, some ("Eve", "K"))⟩, ⟨1, 0, 0, (false, none)⟩⟩ := by
    simp [schedStep, thStep, thInit, hce2, hex2]
  have hlcE : likeCond "RWT-AB12CD34"
      ⟨"XRWT-AB12CD34Z", "Eve", "K", "e@k", "2", "registered", none⟩ = true := by
    simp [likeCond, hlikeE]
  have hlcA : likeCond "RWT-AB12CD34"
      ⟨"RWT-AB12CD34", "Ann", "B", "a@b", "1", "checked_in", some 1⟩ = false := by
    simp [likeCond]
  have hlu : likeUpdate 2 "RWT-AB12CD34"
      [⟨"XRWT-AB12CD34Z", "Eve", "K", "e@k", "2", "registered", none⟩,
       ⟨"RWT-AB12CD34", "Ann", "B", "a@b", "1", "checked_in", some 1⟩] =
      [⟨"XRWT-AB12CD34Z", "Eve", "K", "e@k", "2", "checked_in", some 2⟩,
       ⟨"RWT-AB12CD34", "Ann", "B", "a@b", "1", "checked_in", some 1⟩] := by
    simp [likeUpdate, hlcE, hlcA, checkRow]
  have hcl : countLike "RWT-AB12CD34"
      [⟨"XRWT-AB12CD34Z", "Eve", "K", "e@k", "2", "registered", none⟩,
       ⟨"RWT-AB12CD34", "Ann", "B", "a@b", "1", "checked_in", some 1⟩] = 1 := by
    simp [countLike, List.countP_cons, hlcE, hlcA]
  have hs5 : schedStep 1 2 "RWT-AB12CD34"
      ⟨[⟨"XRWT-AB12CD34Z", "Eve", "K", "e@k", "2", "registered", none⟩,
        ⟨"RWT-AB12CD34", "Ann", "B", "a@b", "1", "checked_in", some 1⟩],
       ⟨3, 1, 1, (true, some ("Eve", "K"))⟩, ⟨1, 0, 0, (false, none)⟩⟩ false =
      ⟨[⟨"XRWT-AB12CD34Z", "Eve", "K", "e@k", "2", "checked_in", some 2⟩,
        ⟨"RWT-AB12CD34", "Ann", "B", "a@b", "1", "checked_in", some 1⟩],
       ⟨3, 1, 1, (true, some ("Eve", "K"))⟩, ⟨2, 0, 1, (false, none)⟩⟩ := by
    simp [schedStep, thStep, hlu, hcl]
  have hsr2 : selectResult "RWT-AB12CD34"
      [⟨"XRWT-AB12CD34Z", "Eve", "K", "e@k", "2", "checked_in", some 2⟩,
       ⟨"RWT-AB12CD34", "Ann", "B", "a@b", "1", "checked_in", some 1⟩] 1 =
      (true, some ("Eve", "K")) := by
    rw [selectResult, if_pos (by omega : (0:Nat) < 1), List.find?_cons_of_pos _ hselE2]
  have hs6 : schedStep 1 2 "RWT-AB12CD34"
      ⟨[⟨"XRWT-AB12CD34Z", "Eve", "K", "e@k", "2", "checked_in", some 2⟩,
        ⟨"RWT-AB12CD34", "Ann", "B", "a@b", "1", "checked_in", some 1⟩],
       ⟨3, 1, 1, (true, some ("Eve", "K"))⟩, ⟨2, 0, 1, (false, none)⟩⟩ false =
      ⟨[⟨"XRWT-AB12CD34Z", "Eve", "K", "e@k", "2", "checked_in", some 2⟩,
        ⟨"RWT-AB12CD34", "Ann", "B", "a@b", "1", "checked_in", some 1⟩],
       ⟨3, 1, 1, (true, some ("Eve", "K"))⟩, ⟨3, 0, 1, (true, some ("Eve", "K"))⟩⟩ := by
    simp [schedStep, thStep, hsr2]
  have hrun : runSched 1 2 "RWT-AB12CD34" [true, true, true, false, false, false]
      ⟨[⟨"XRWT-AB12CD34Z", "Eve", "K", "e@k", "2", "registered", none⟩,
        ⟨"RWT-AB12CD34", "Ann", "B", "a@b", "1", "registered", none⟩],
       thInit, thInit⟩ =
      ⟨[⟨"XRWT-AB12CD34Z", "Eve", "K", "e@k", "2", "checked_in", some 2⟩,
        ⟨"RWT-AB12CD34", "Ann", "B", "a@b", "1", "checked_in", some 1⟩],
       ⟨3, 1, 1, (true, some ("Eve", "K"))⟩, ⟨3, 0, 1, (true, some ("Eve", "K"))⟩⟩ := by
    rw [runSched]
    simp only [List.foldl_cons, List.foldl_nil]
    rw [hs1, hs2, hs3, hs4, hs5, hs6]
  rw [hrun]
  exact ⟨rfl, rfl⟩
/-- Witness for `c8_concurrent_exclusive` at a concrete one-row table and a
concrete schedule. -/
theorem c8_concurrent_exclusive_witness :
    ((runSched 1 2 "RWT-AB12CD34" [true, true, true, false, false, false]
        ⟨[⟨"RWT-AB12CD34", "Ann", "B", "a@b", "1", "registered", none⟩],
         thInit, thInit⟩).a.res = (true, some ("Ann", "B")) ∧
      (runSched 1 2 "RWT-AB12CD34" [true, true, true, false, false, false]
        ⟨[⟨"RWT-AB12CD34", "Ann", "B", "a@b", "1", "registered", none⟩],
         thInit, thInit⟩).b.res = (false, some ("Ann", "B"))) ∨
    ((runSched 1 2 "RWT-AB12CD34" [true, true, true, false, false, false]
        ⟨[⟨"RWT-AB12CD34", "Ann", "B", "a@b", "1", "registered", none⟩],
         thInit, thInit⟩).b.res = (true, some ("Ann", "B")) ∧
      (runSched 1 2 "RWT-AB12CD34" [true, true, true, false, false, false]
        ⟨[⟨"RWT-AB12CD34", "Ann", "B", "a@b", "1", "registered", none⟩],
         thInit, thInit⟩).a.res = (false, some ("Ann", "B"))) := by
  have hsel : likeSel "RWT-AB12CD34"
      ⟨"RWT-AB12CD34", "Ann", "B", "a@b", "1", "checked_in", some 1⟩ = true := by
    rw [likeSel]
    exact like_self "RWT-AB12CD34" "RWT-AB12CD34" rfl
  have hce1 : countExact "RWT-AB12CD34"
      [⟨"RWT-AB12CD34", "Ann", "B", "a@b", "1", "registered", none⟩] = 1 := by decide
  have hex1 : exactUpdate 1 "RWT-AB12CD34"
      [⟨"RWT-AB12CD34", "Ann", "B", "a@b", "1", "registered", none⟩] =
      [⟨"RWT-AB12CD34", "Ann", "B", "a@b", "1", "checked_in", some 1⟩] := by decide
  have hs1 : schedStep 1 2 "RWT-AB12CD34"
      ⟨[⟨"RWT-AB12CD34", "Ann", "B", "a@b", "1", "registered", none⟩],
       thInit, thInit⟩ true =
      ⟨[⟨"RWT-AB12CD34", "Ann", "B", "a@b", "1", "checked_in", some 1⟩],
       ⟨1, 1, 1, (false, none)⟩, thInit⟩ := by
    simp [schedStep, thStep, thInit, hce1, hex1]
  have hs2 : schedStep 1 2 "RWT-AB12CD34"
      ⟨[⟨"RWT-AB12CD34", "Ann", "B", "a@b", "1", "checked_in", some 1⟩],
       ⟨1, 1, 1, (false, none)⟩, thInit⟩ true =
      ⟨[⟨"RWT-AB12CD34", "Ann", "B", "a@b", "1", "checked_in", some 1⟩],
       ⟨2, 1, 1, (false, none)⟩, thInit⟩ := by
    simp [schedStep, thStep]
  have hsr1 : selectResult "RWT-AB12CD34"
      [⟨"RWT-AB12CD34", "Ann", "B", "a@b", "1", "checked_in", some 1⟩] 1 =
      (true, some ("Ann", "B")) := by
    rw [selectResult, if_pos (by omega : (0:Nat) < 1), List.find?_cons_of_pos _ hsel]
  have hs3 : schedStep 1 2 "RWT-AB12CD34"
      ⟨[⟨"RWT-AB12CD34", "Ann", "B", "a@b", "1", "checked_in", some 1⟩],
       ⟨2, 1, 1, (false, none)⟩, thInit⟩ true =
      ⟨[⟨"RWT-AB12CD34", "Ann", "B", "a@b", "1", "checked_in", some 1⟩],
       ⟨3, 1, 1, (true, some ("Ann", "B"))⟩, thInit⟩ := by
    simp [schedStep, thStep, hsr1]
  have hce2 : countExact "RWT-AB12CD34"
      [⟨"RWT-AB12CD34", "Ann", "B", "a@b", "1", "checked_in", some 1⟩] = 0 := by decide
  have hex2 : exactUpdate 2 "RWT-AB12CD34"
      [⟨"RWT-AB12CD34", "Ann", "B", "a@b", "1", "checked_in", some 1⟩] =
      [⟨"RWT-AB12CD34", "Ann", "B", "a@b", "1", "checked_in", some 1⟩] := by decide
  have hs4 : schedStep 1 2 "RWT-AB12CD34"
      ⟨[⟨"RWT-AB12CD34", "Ann", "B", "a@b", "1", "checked_in", some 1⟩],
       ⟨3, 1, 1, (true, some ("Ann", "B"))⟩, thInit⟩ false =
      ⟨[⟨"RWT-AB12CD34", "Ann", "B", "a@b", "1", "checked_in", some 1⟩],
       ⟨3, 1, 1, (true, some ("Ann", "B"))⟩, ⟨1, 0, 0, (false, none)⟩⟩ := by
    simp [schedStep, thStep, thInit, hce2, hex2]
  have hlcA : likeCond "RWT-AB12CD34"
      ⟨"RWT-AB12CD34", "Ann", "B", "a@b", "1", "checked_in", some 1⟩ = false := by
    simp [likeCond]
  have hlu : likeUpdate 2 "RWT-AB12CD34"
      [⟨"RWT-AB12CD34", "Ann", "B", "a@b", "1", "checked_in", some 1⟩] =
      [⟨"RWT-AB12CD34", "Ann", "B", "a@b", "1", "checked_in", some 1⟩] := by
    simp [likeUpdate, hlcA]
  have hcl : countLike "RWT-AB12CD34"
      [⟨"RWT-AB12CD34", "Ann", "B", "a@b", "1", "checked_in", some 1⟩] = 0 := by
    simp [countLike, List.countP_cons, hlcA]
  have hs5 : schedStep 1 2 "RWT-AB12CD34"
      ⟨[⟨"RWT-AB12CD34", "Ann", "B", "a@b", "1", "checked_in", some 1⟩],
       ⟨3, 1, 1, (true, some ("Ann", "B"))⟩, ⟨1, 0, 0, (false, none)⟩⟩ false =
      ⟨[⟨"RWT-AB12CD34", "Ann", "B", "a@b", "1", "checked_in", some 1⟩],
       ⟨3, 1, 1, (true, some ("Ann", "B"))⟩, ⟨2, 0, 0, (false, none)⟩⟩ := by
    simp [schedStep, thStep, hlu, hcl]
  have hsr0 : selectResult "RWT-AB12CD34"
      [⟨"RWT-AB12CD34", "Ann", "B", "a@b", "1", "checked_in", some 1⟩] 0 =
      (false, some ("Ann", "B")) := by
    rw [selectResult, if_neg (by omega : ¬ (0:Nat) < 0), List.find?_cons_of_pos _ hsel]
    rfl
  have hs6 : schedStep 1 2 "RWT-AB12CD34"
      ⟨[⟨"RWT-AB12CD34", "Ann", "B", "a@b", "1", "checked_in", some 1⟩],
       ⟨3, 1, 1, (true, some ("Ann", "B"))⟩, ⟨2, 0, 0, (false, none)⟩⟩ false =
      ⟨[⟨"RWT-AB12CD34", "Ann", "B", "a@b", "1", "checked_in", some 1⟩],
       ⟨3, 1, 1, (true, some ("Ann", "B"))⟩, ⟨3, 0, 0, (false, some ("Ann", "B"))⟩⟩ := by
    simp [schedStep, thStep, hsr0]
  have hrun : runSched 1 2 "RWT-AB12CD34" [true, true, true, false, false, false]
      ⟨[⟨"RWT-AB12CD34", "Ann", "B", "a@b", "1", "registered", none⟩],
       thInit, thInit⟩ =
      ⟨[⟨"RWT-AB12CD34", "Ann", "B", "a@b", "1", "checked_in", some 1⟩],
       ⟨3, 1, 1, (true, some ("Ann", "B"))⟩, ⟨3, 0, 0, (false, some ("Ann", "B"))⟩⟩ := by
    rw [runSched]
    simp only [List.foldl_cons, List.foldl_nil]
    rw [hs1, hs2, hs3, hs4, hs5, hs6]
  exact c8_concurrent_exclusive 1 2 []
    [] ⟨"RWT-AB12CD34", "Ann", "B", "a@b", "1", "registered", none⟩ rfl
    (by simp) [true, true, true, false, false, false]
    (by show (runSched 1 2 "RWT-AB12CD34" [true, true, true, false, false, false]
          ⟨[⟨"RWT-AB12CD34", "Ann", "B", "a@b", "1", "registered", none⟩],
           thInit, thInit⟩).a.pc = 3
        rw [hrun])
    (by show (runSched 1 2 "RWT-AB12CD34" [true, true, true, false, false, false]
          ⟨[⟨"RWT-AB12CD34", "Ann", "B", "a@b", "1", "registered", none⟩],
           thInit, thInit⟩).b.pc = 3
        rw [hrun])
/-!
## Claim C5: extraction strategies
-/

/-- Counterexample to claim C5 as stated: on `"RWT-hello world"` the code's
prefix check fires on `startswith` alone and returns the whole text verbatim,
while the claim's strategy list — (a) needs a ticket query parameter, (b)
needs the text to match PREFIX-ALNUM, (c) needs a regex match — produces no
result. -/
theorem c5_counterexample :
    extract_ticket_id "RWT-hello world" = some "RWT-hello world" ∧
    spec_extract_ticket_id "RWT-hello world" = none ∧
    extract_ticket_id "RWT-hello world" ≠ spec_extract_ticket_id "RWT-hello world" :=
  ⟨by decide, by decide, by decide⟩

/-- Claim C5 (amended): `_extract_ticket_id` never raises and tries its
strategies in this order: empty input gives no result; if the text contains
the substring `"?ticket="` and `urlparse` does not raise, the result is the
first non-blank `ticket` query parameter — possibly none, with no fallback;
otherwise (no `"?ticket="`, or `urlparse` raised) a text starting with one of
the known prefixes is returned whole and verbatim; otherwise the first
substring matching `[A-Z]{2,4}-[A-Z0-9]{6,12}` is returned; `"garbage"`
yields no result and embedded identifiers are found by the regex. -/
theorem c5_extract_strategies :
    (∀ qr : String, qr = "" → extract_ticket_id qr = none) ∧
    (∀ qr : String, qr ≠ "" → substrContains qr.data ("?ticket=".data) = true →
      urlRaisesB qr.data = false →
      extract_ticket_id qr = (ticketParamL qr.data).map (fun m => String.mk m)) ∧
    (∀ qr : String, qr ≠ "" →
      (substrContains qr.data ("?ticket=".data) = false ∨ urlRaisesB qr.data = true) →
      startsWithKnown qr = true → extract_ticket_id qr = some qr) ∧
    (∀ qr : String, qr ≠ "" →
      (substrContains qr.data ("?ticket=".data) = false ∨ urlRaisesB qr.data = true) →
      startsWithKnown qr = false →
      extract_ticket_id qr = (regexSearch qr.data).map (fun m => String.mk m)) ∧
    extract_ticket_id "noise text with VIP-99ZZ11 embedded" = some "VIP-99ZZ11" ∧
    extract_ticket_id "garbage" = none := by
  refine ⟨?_, ?_, ?_, ?_, by decide, by decide⟩
  · intro qr h
    rw [extract_ticket_id, if_pos h]
  · intro qr h0 hc hr
    rw [extract_ticket_id, if_neg h0, if_pos hc, if_neg (by simp [hr])]
  · intro qr h0 hd hk
    rcases hd with hc | hr
    · rw [extract_ticket_id, if_neg h0, if_neg (by simp [hc]), extract_fallback, if_pos hk]
    · rw [extract_ticket_id, if_neg h0]
      by_cases hc : substrContains qr.data ("?ticket=".data) = true
      · rw [if_pos hc, if_pos hr, extract_fallback, if_pos hk]
      · rw [if_neg hc, extract_fallback, if_pos hk]
  · intro qr h0 hd hk
    rcases hd with hc | hr
    · rw [extract_ticket_id, if_neg h0, if_neg (by simp [hc]), extract_fallback,
        if_neg (by simp [hk])]
    · rw [extract_ticket_id, if_neg h0]
      by_cases hc : substrContains qr.data ("?ticket=".data) = true
      · rw [if_pos hc, if_pos hr, extract_fallback, if_neg (by simp [hk])]
      · rw [if_neg hc, extract_fallback, if_neg (by simp [hk])]

/-- Witness for `c5_extract_strategies` (URL branch) at a concrete scanned
URL. -/
theorem c5_extract_strategies_witness :
    extract_ticket_id "https://x.test/?ticket=RWT-AB12CD34&action=checkin" =
      (ticketParamL "https://x.test/?ticket=RWT-AB12CD34&action=checkin".data).map
        (fun m => String.mk m) :=
  c5_extract_strategies.2.1 "https://x.test/?ticket=RWT-AB12CD34&action=checkin"
    (by decide) (by decide) (by decide)


theorem substr_nil (l : List Char) : substrContains l [] = true := by
  cases l <;> simp [substrContains, List.isPrefixOf]

theorem substr_here (n c : List Char) : substrContains (n ++ c) n = true := by
  cases n with
  | nil => simpa using substr_nil c
  | cons m mt =>
    rw [List.cons_append, substrContains]
    have hpre : (m :: mt).isPrefixOf (m :: (mt ++ c)) = true := by
      rw [List.isPrefixOf_iff_prefix]
      exact List.prefix_append (m :: mt) c
    simp [hpre]

theorem substrContains_append (a n c : List Char) :
    substrContains (a ++ (n ++ c)) n = true := by
  induction a with
  | nil => simpa using substr_here n c
  | cons x t ih =>
    rw [List.cons_append, substrContains]
    simp [ih]

theorem dropWhile_eq_self_of_false {p : Char → Bool} :
    ∀ l : List Char, (∀ c ∈ l, p c = false) → l.dropWhile p = l
  | [], _ => rfl
  | c :: t, h => by
    rw [List.dropWhile_cons, if_neg (by simp [h c (by simp)])]

theorem cleanUrl_eq_self {l : List Char} (h : ∀ c ∈ l, 0x20 < c.toNat) :
    cleanUrl l = l := by
  have hp : ∀ c ∈ l, isC0OrSpace c = false := by
    intro c hc
    have := h c hc
    simp [isC0OrSpace]
    omega
  have h1 : l.dropWhile isC0OrSpace = l := dropWhile_eq_self_of_false l hp
  have h2 : l.reverse.dropWhile isC0OrSpace = l.reverse :=
    dropWhile_eq_self_of_false l.reverse (fun c hc => hp c (List.mem_reverse.mp hc))
  rw [cleanUrl, stripC0, h1, h2, List.reverse_reverse]
  rw [List.filter_eq_self]
  intro c hc
  have h3 := h c hc
  have ht : c ≠ '\t' := char_ne_of_toNat_ne (by intro he; rw [he] at h3; simp at h3)
  have hr : c ≠ '\r' := char_ne_of_toNat_ne (by intro he; rw [he] at h3; simp at h3)
  have hn : c ≠ '\n' := char_ne_of_toNat_ne (by intro he; rw [he] at h3; simp at h3)
  simp [tabCrLf, ht, hr, hn]

theorem splitFirst_some (k : Char) :
    ∀ (l a b : List Char), splitFirst k l = some (a, b) → l = a ++ k :: b := by
  intro l
  induction l with
  | nil => intro a b h; simp [splitFirst] at h
  | cons c t ih =>
    intro a b h
    rw [splitFirst] at h
    by_cases hc : c = k
    · rw [if_pos hc] at h
      obtain ⟨ha, hb⟩ : [] = a ∧ t = b := by
        constructor <;> [exact congrArg Prod.fst (Option.some.inj h);
          exact congrArg Prod.snd (Option.some.inj h)]
      subst hc; rw [← ha, ← hb]; rfl
    · rw [if_neg hc] at h
      cases hsp : splitFirst k t with
      | none => rw [hsp] at h; simp at h
      | some p =>
        rw [hsp] at h
        simp only [Option.map_some'] at h
        obtain ⟨ha, hb⟩ : c :: p.1 = a ∧ p.2 = b := by
          constructor <;> [exact congrArg Prod.fst (Option.some.inj h);
            exact congrArg Prod.snd (Option.some.inj h)]
        have := ih p.1 p.2 (by rw [hsp])
        rw [← ha, ← hb, this]
        rfl

theorem schemeRest_mem {c : Char} {l : List Char} (h : c ∈ schemeRest l) : c ∈ l := by
  cases hsp : splitFirst ':' l with
  | none =>
    rw [schemeRest, hsp] at h
    exact h
  | some p =>
    obtain ⟨bef, aft⟩ := p
    rw [schemeRest, hsp] at h
    cases bef with
    | nil => exact h
    | cons c0 t0 =>
      have h2 : c ∈ (if ((isAsciiUpperCh c0 || isAsciiLowerCh c0) &&
          (c0 :: t0).all schemeChar) = true then aft else l) := h
      by_cases hcond :
          ((isAsciiUpperCh c0 || isAsciiLowerCh c0) && (c0 :: t0).all schemeChar) = true
      · rw [if_pos hcond] at h2
        have hl := splitFirst_some ':' l (c0 :: t0) aft (by rw [hsp])
        rw [hl]
        exact List.mem_append_right _ (List.mem_cons_of_mem _ h2)
      · rw [if_neg hcond] at h2
        exact h2

theorem netlocOf_mem {c : Char} {l : List Char} (h : c ∈ netlocOf l) : c ∈ l := by
  cases l with
  | nil => exact absurd h (by simp [netlocOf])
  | cons x t =>
    cases t with
    | nil => exact absurd h (by simp [netlocOf])
    | cons y rest =>
      rw [netlocOf] at h
      by_cases hxy : x = '/' ∧ y = '/'
      · rw [if_pos hxy] at h
        have := (List.takeWhile_sublist _).mem h
        simp [this]
      · rw [if_neg hxy] at h
        exact absurd h (by simp)

theorem contains_false_of_not_mem {c : Char} {l : List Char} (h : c ∉ l) :
    l.contains c = false := by
  cases hc : l.contains c
  · rfl
  · exact absurd (List.elem_iff.mp hc) h

theorem urlRaises_false {l : List Char}
    (hnb : ∀ c ∈ l, c ≠ '[' ∧ c ≠ ']') (hcl : cleanUrl l = l) :
    urlRaisesB l = false := by
  rw [urlRaisesB, hcl]
  have hmem : ∀ c ∈ netlocOf (schemeRest l), c ∈ l :=
    fun c hc => schemeRest_mem (netlocOf_mem hc)
  have h1 : (netlocOf (schemeRest l)).contains '[' = false :=
    contains_false_of_not_mem (fun hm => (hnb _ (hmem _ hm)).1 rfl)
  have h2 : (netlocOf (schemeRest l)).contains ']' = false :=
    contains_false_of_not_mem (fun hm => (hnb _ (hmem _ hm)).2 rfl)
  rw [h1, h2]
  rfl
theorem afterChar_append (k : Char) :
    ∀ (a b : List Char), (∀ c ∈ a, c ≠ k) → afterChar k (a ++ k :: b) = b := by
  intro a
  induction a with
  | nil => intro b _; simp [afterChar]
  | cons x t ih =>
    intro b h
    rw [List.cons_append, afterChar, if_neg (h x (by simp))]
    exact ih b (fun c hc => h c (by simp [hc]))

theorem takeWhile_all {p : Char → Bool} (l : List Char)
    (h : ∀ c ∈ l, p c = true) : l.takeWhile p = l :=
  List.takeWhile_eq_self_iff.mpr h

theorem splitOnChar_no (k : Char) :
    ∀ l : List Char, (∀ c ∈ l, c ≠ k) → splitOnChar k l = [l] := by
  intro l
  induction l with
  | nil => intro _; rfl
  | cons x t ih =>
    intro h
    rw [splitOnChar, if_neg (h x (by simp)), ih (fun c hc => h c (by simp [hc]))]

theorem splitOnChar_append (k : Char) :
    ∀ (a b : List Char), (∀ c ∈ a, c ≠ k) →
      splitOnChar k (a ++ k :: b) = a :: splitOnChar k b := by
  intro a
  induction a with
  | nil => intro b _; simp [splitOnChar]
  | cons x t ih =>
    intro b h
    rw [List.cons_append, splitOnChar, if_neg (h x (by simp)),
      ih b (fun c hc => h c (by simp [hc]))]

theorem splitFirst_append (k : Char) :
    ∀ (a b : List Char), (∀ c ∈ a, c ≠ k) →
      splitFirst k (a ++ k :: b) = some (a, b) := by
  intro a
  induction a with
  | nil => intro b _; simp [splitFirst]
  | cons x t ih =>
    intro b h
    rw [List.cons_append, splitFirst, if_neg (h x (by simp)),
      ih b (fun c hc => h c (by simp [hc]))]
    rfl

theorem unquotePlus_eq_self :
    ∀ l : List Char, (∀ c ∈ l, c ≠ '%' ∧ c ≠ '+') → unquotePlusL l = l := by
  intro l
  induction l with
  | nil => intro _; rfl
  | cons c t ih =>
    intro h
    have hc := h c (by simp)
    have ht := ih (fun d hd => h d (by simp [hd]))
    rcases hc with ⟨hcp, hcplus⟩
    rw [unquotePlusL.eq_def]
    split <;> simp_all
theorem alnum_dash_props {c : Char} (h : isAsciiAlnumCh c = true ∨ c = '-') :
    0x20 < c.toNat ∧ c ≠ '?' ∧ c ≠ '#' ∧ c ≠ '[' ∧ c ≠ ']' ∧ c ≠ '&' ∧ c ≠ '=' ∧
      c ≠ '%' ∧ c ≠ '+' := by
  rcases h with h | h
  · have hr := isAsciiAlnumCh_iff.mp h
    refine ⟨by rcases hr with h1 | h1 | h1 <;> omega, ?_, ?_, ?_, ?_, ?_, ?_, ?_, ?_⟩ <;>
      exact fun heq => absurd (heq ▸ h) (by decide)
  · subst h
    refine ⟨by decide, by decide, by decide, by decide, by decide, by decide,
      by decide, by decide, by decide⟩

theorem string_mk_data (s : String) : String.mk s.data = s := rfl

/-!
## Claim C1: the encode/extract round trip
-/

/-- Claim C1 (amended): for every base URL containing no `?`, `#`, `[`, `]`
and no control/space characters, and every identifier of the generated shape
(alphanumeric prefix, `-`, alphanumeric suffix, as `generate_ticket_id`
emits), extracting the ticket identifier from the encoded check-in URL
returns the identifier byte-for-byte.  For base URLs containing `?` or `#`
the round trip fails: see the counterexample. -/
theorem c1_roundtrip (base pfx suf : String)
    (hbase : ∀ c ∈ base.data, 0x20 < c.toNat ∧ c ≠ '?' ∧ c ≠ '#' ∧ c ≠ '[' ∧ c ≠ ']')
    (hpfx : ∀ c ∈ pfx.data, isAsciiAlnumCh c = true)
    (hsuf : ∀ c ∈ suf.data, isAsciiAlnumCh c = true) :
    extract_ticket_id (create_checkin_qr_url base (pfx ++ "-" ++ suf)) =
      some (pfx ++ "-" ++ suf) := by
  have hidl : (pfx ++ "-" ++ suf).data = pfx.data ++ '-' :: suf.data := by
    simp [String.data_append]
  have hidc : ∀ c ∈ (pfx ++ "-" ++ suf).data, isAsciiAlnumCh c = true ∨ c = '-' := by
    rw [hidl]
    intro c hc
    rcases List.mem_append.mp hc with h | h
    · exact Or.inl (hpfx c h)
    · rcases List.mem_cons.mp h with h | h
      · exact Or.inr h
      · exact Or.inl (hsuf c h)
  have hurl : (create_checkin_qr_url base (pfx ++ "-" ++ suf)).data =
      base.data ++ ("/?ticket=".data ++ ((pfx ++ "-" ++ suf).data ++
        "&action=checkin".data)) := create_checkin_qr_url_data base (pfx ++ "-" ++ suf)
  have hfix1 : ∀ c ∈ "/?ticket=".data,
      0x20 < c.toNat ∧ c ≠ '#' ∧ c ≠ '[' ∧ c ≠ ']' := by decide
  have hfix2 : ∀ c ∈ "&action=checkin".data,
      0x20 < c.toNat ∧ c ≠ '#' ∧ c ≠ '[' ∧ c ≠ ']' := by decide
  have hall : ∀ c ∈ base.data ++ ("/?ticket=".data ++ ((pfx ++ "-" ++ suf).data ++
      "&action=checkin".data)),
      0x20 < c.toNat ∧ c ≠ '#' ∧ c ≠ '[' ∧ c ≠ ']' := by
    intro c hc
    rcases List.mem_append.mp hc with h | h
    · obtain ⟨h1, _, h3, h4, h5⟩ := hbase c h
      exact ⟨h1, h3, h4, h5⟩
    · rcases List.mem_append.mp h with h | h
      · exact hfix1 c h
      · rcases List.mem_append.mp h with h | h
        · obtain ⟨h1, _, h3, h4, h5, _⟩ := alnum_dash_props (hidc c h)
          exact ⟨h1, h3, h4, h5⟩
        · exact hfix2 c h
  have hclean : cleanUrl (base.data ++ ("/?ticket=".data ++ ((pfx ++ "-" ++ suf).data ++
      "&action=checkin".data))) =
      base.data ++ ("/?ticket=".data ++ ((pfx ++ "-" ++ suf).data ++
        "&action=checkin".data)) :=
    cleanUrl_eq_self (fun c hc => (hall c hc).1)
  have hraise : urlRaisesB (base.data ++ ("/?ticket=".data ++ ((pfx ++ "-" ++ suf).data ++
      "&action=checkin".data))) = false :=
    urlRaises_false (fun c hc => ⟨(hall c hc).2.2.1, (hall c hc).2.2.2⟩) hclean
  have hlit1 : "/?ticket=".data = '/' :: '?' :: "ticket=".data := rfl
  have hrearr : base.data ++ ("/?ticket=".data ++ ((pfx ++ "-" ++ suf).data ++
      "&action=checkin".data)) =
      (base.data ++ ['/']) ++ '?' :: ("ticket=".data ++ ((pfx ++ "-" ++ suf).data ++
        "&action=checkin".data)) := by
    rw [hlit1]
    simp [List.append_assoc]
  have hq : urlQueryL (base.data ++ ("/?ticket=".data ++ ((pfx ++ "-" ++ suf).data ++
      "&action=checkin".data))) =
      "ticket=".data ++ ((pfx ++ "-" ++ suf).data ++ "&action=checkin".data) := by
    rw [urlQueryL, hclean,
      takeWhile_all _ (fun c hc => by simp [(hall c hc).2.1]), hrearr]
    apply afterChar_append
    intro c hc
    rcases List.mem_append.mp hc with h | h
    · exact (hbase c h).2.1
    · rcases List.mem_cons.mp h with h | h
      · rw [h]; decide
      · exact absurd h (by simp)
  have hlit2 : "&action=checkin".data = '&' :: "action=checkin".data := rfl
  have hrearr2 : "ticket=".data ++ ((pfx ++ "-" ++ suf).data ++ "&action=checkin".data) =
      ("ticket=".data ++ (pfx ++ "-" ++ suf).data) ++ '&' :: "action=checkin".data := by
    rw [hlit2]
    simp [List.append_assoc]
  have hnoAmp : ∀ c ∈ "ticket=".data ++ (pfx ++ "-" ++ suf).data, c ≠ '&' := by
    intro c hc
    have htk : ∀ d ∈ "ticket=".data, d ≠ '&' := by decide
    rcases List.mem_append.mp hc with h | h
    · exact htk c h
    · exact (alnum_dash_props (hidc c h)).2.2.2.2.2.1
  have hsplit : splitOnChar '&' ("ticket=".data ++ ((pfx ++ "-" ++ suf).data ++
      "&action=checkin".data)) =
      ("ticket=".data ++ (pfx ++ "-" ++ suf).data) :: ["action=checkin".data] := by
    rw [hrearr2, splitOnChar_append '&' _ _ hnoAmp,
      splitOnChar_no '&' "action=checkin".data (by decide)]
  have hlit3 : "ticket=".data = "ticket".data ++ ['='] := rfl
  have hrearr3 : "ticket=".data ++ (pfx ++ "-" ++ suf).data =
      "ticket".data ++ '=' :: (pfx ++ "-" ++ suf).data := by
    rw [hlit3]
    simp [List.append_assoc]
  have hpair : splitFirst '=' ("ticket=".data ++ (pfx ++ "-" ++ suf).data) =
      some ("ticket".data, (pfx ++ "-" ++ suf).data) := by
    rw [hrearr3]
    exact splitFirst_append '=' _ _ (by decide)
  have hvne : (pfx ++ "-" ++ suf).data ≠ [] := by
    rw [hidl]
    simp
  have hunq : unquotePlusL (pfx ++ "-" ++ suf).data = (pfx ++ "-" ++ suf).data :=
    unquotePlus_eq_self _ (fun c hc =>
      ⟨(alnum_dash_props (hidc c hc)).2.2.2.2.2.2.2.1,
       (alnum_dash_props (hidc c hc)).2.2.2.2.2.2.2.2⟩)
  have hticket : ticketParamL (base.data ++ ("/?ticket=".data ++
      ((pfx ++ "-" ++ suf).data ++ "&action=checkin".data))) =
      some (pfx ++ "-" ++ suf).data := by
    rw [ticketParamL, hq, hsplit, ticketFromPairs, hpair]
    show (if unquotePlusL "ticket".data = "ticket".data ∧ (pfx ++ "-" ++ suf).data ≠ []
        then some (unquotePlusL (pfx ++ "-" ++ suf).data)
        else ticketFromPairs ["action=checkin".data]) = some (pfx ++ "-" ++ suf).data
    rw [if_pos ⟨by decide, hvne⟩, hunq]
  have hcont : substrContains (base.data ++ ("/?ticket=".data ++
      ((pfx ++ "-" ++ suf).data ++ "&action=checkin".data))) ("?ticket=".data) = true := by
    rw [hrearr]
    have hx : ('?' :: ("ticket=".data ++ ((pfx ++ "-" ++ suf).data ++
        "&action=checkin".data))) = "?ticket=".data ++ ((pfx ++ "-" ++ suf).data ++
        "&action=checkin".data) := rfl
    rw [hx]
    exact substrContains_append _ _ _
  have hne : create_checkin_qr_url base (pfx ++ "-" ++ suf) ≠ "" := by
    intro he
    have h2 := congrArg String.data he
    rw [hurl] at h2
    simp at h2
  rw [extract_ticket_id, if_neg hne, if_pos (by rw [hurl]; exact hcont),
    if_neg (by rw [hurl, hraise]; simp), hurl, hticket]
  rw [Option.map_some']

/-- Witness for `c1_roundtrip` at a concrete base URL and identifier. -/
theorem c1_roundtrip_witness :
    extract_ticket_id (create_checkin_qr_url "https://x.test" ("RWT" ++ "-" ++ "AB12CD34")) =
      some ("RWT" ++ "-" ++ "AB12CD34") :=
  c1_roundtrip "https://x.test" "RWT" "AB12CD34" (by decide) (by decide) (by decide)

/-- Counterexample to claim C1 as stated ("every base URL"): with the base
URL `"https://x.test?y"` the query that `urlparse` reports starts at the
base's own `?`, the first query pair's name becomes `y/?ticket`, and the
extraction returns no result instead of the generated identifier
`RWT-AB12CD34`. -/
theorem c1_counterexample :
    extract_ticket_id (create_checkin_qr_url "https://x.test?y" "RWT-AB12CD34") = none ∧
    "RWT-AB12CD34" = "RWT" ++ "-" ++ "AB12CD34" :=
  ⟨by decide, by decide⟩

end RootedTour
